import Mathlib

/-!
# unicorn-lsl: the device-to-outlet bridge of `src/main.cpp`

A shallow embedding of `main`, `HandleError`, `PrintErrorMessage` and `OnClose`.
The vendor driver, the outlet library and the interrupt signal are the
environment: a run of `main` is a function of what the driver returns at each
call and of when the interrupt is delivered, and it yields the ordered list of
externally visible events (console output, driver calls, outlet calls, heap
allocation and release) together with the way the run ends.
-/

namespace UnicornLSL

/-! ## Configuration (main.cpp, lines 10-14) -/

def DEVICE_SERIAL : String := "UN-2019.02.90"
def FRAME_LENGTH : Nat := 1
def TESTSIGNAL_ENABLED : Bool := false
def STREAM_NAME : String := "Unicorn"
def STREAM_TYPE : String := "EEG"

/-- Modelled from the spec: the success status of the vendor API, declared in
`unicorn.h`, which is not part of the repository ("All return an integer status
code; zero means success"). -/
def UNICORN_ERROR_SUCCESS : Int := 0

/-- The constants of `unicorn.h` that `main.cpp` uses by name. The header is not
part of the repository, so their values are parameters of the model. -/
structure UnicornHeader where
  UNICORN_ERROR_INVALID_PARAMETER : Int
  UNICORN_ERROR_BLUETOOTH_INIT_FAILED : Int
  UNICORN_ERROR_BLUETOOTH_SOCKET_FAILED : Int
  UNICORN_ERROR_OPEN_DEVICE_FAILED : Int
  UNICORN_ERROR_INVALID_CONFIGURATION : Int
  UNICORN_ERROR_BUFFER_OVERFLOW : Int
  UNICORN_ERROR_BUFFER_UNDERFLOW : Int
  UNICORN_ERROR_OPERATION_NOT_ALLOWED : Int
  UNICORN_ERROR_INVALID_HANDLE : Int
  UNICORN_ERROR_GENERAL_ERROR : Int
  UNICORN_SAMPLING_RATE : Nat

/-- The ten error constants, in the order of the `switch` of `PrintErrorMessage`. -/
def UnicornHeader.errorCodes (h : UnicornHeader) : List Int :=
  [h.UNICORN_ERROR_INVALID_PARAMETER, h.UNICORN_ERROR_BLUETOOTH_INIT_FAILED,
   h.UNICORN_ERROR_BLUETOOTH_SOCKET_FAILED, h.UNICORN_ERROR_OPEN_DEVICE_FAILED,
   h.UNICORN_ERROR_INVALID_CONFIGURATION, h.UNICORN_ERROR_BUFFER_OVERFLOW,
   h.UNICORN_ERROR_BUFFER_UNDERFLOW, h.UNICORN_ERROR_OPERATION_NOT_ALLOWED,
   h.UNICORN_ERROR_INVALID_HANDLE, h.UNICORN_ERROR_GENERAL_ERROR]

/-- A header instance with ten pairwise distinct non-zero error codes. -/
def sampleHeader : UnicornHeader :=
  { UNICORN_ERROR_INVALID_PARAMETER := 1
    UNICORN_ERROR_BLUETOOTH_INIT_FAILED := 2
    UNICORN_ERROR_BLUETOOTH_SOCKET_FAILED := 3
    UNICORN_ERROR_OPEN_DEVICE_FAILED := 4
    UNICORN_ERROR_INVALID_CONFIGURATION := 5
    UNICORN_ERROR_BUFFER_OVERFLOW := 6
    UNICORN_ERROR_BUFFER_UNDERFLOW := 7
    UNICORN_ERROR_OPERATION_NOT_ALLOWED := 8
    UNICORN_ERROR_INVALID_HANDLE := 9
    UNICORN_ERROR_GENERAL_ERROR := -1
    UNICORN_SAMPLING_RATE := 250 }

/-! ## Data model -/

/-- A `float` of the acquisition buffer, as its 32-bit pattern. The program only
copies and prints these values; it never computes with them. -/
abbrev Float32 := Nat

/-- One operand of a `std::cout << ...` chain. -/
inductive Out
  | str (s : String)
  | endl
  | num (n : Int)
  | flt (x : Float32)
  | left
  | setw (n : Nat)
  deriving DecidableEq, Repr

structure UNICORN_DEVICE_INFORMATION where
  numberOfEegChannels : Nat
  serial : String
  firmwareVersion : String
  deviceVersion : String
  pcbVersion : String
  enclosureVersion : String

structure UNICORN_AMPLIFIER_CHANNEL where
  name : String
  unit : String
  range : Float32 × Float32
  enabled : Int

/-- An externally visible step of a run, in program order. A driver call is
recorded when it returns, with the status it returned. -/
inductive Event
  | cout (o : Out)
  | GetAvailableDevices (listGiven : Bool) (status : Int)
  | newDevices (length : Nat)
  | OpenDevice (serial : String) (status : Int)
  | GetDeviceInformation (status : Int)
  | GetNumberOfAcquiredChannels (status : Int)
  | GetConfiguration (status : Int)
  | newBuffer (length : Nat)
  | stream_info (name kind : String) (channels rate : Nat) (source_id : String)
  | append_child_value (name value : String)
  | append_child (name : String)
  | stream_outlet
  | StartAcquisition (testSignal : Bool) (status : Int)
  | signal
  | OnClose
  | GetData (status : Int)
  | push_sample (sample : List Float32)
  | StopAcquisition (status : Int)
  | deleteBuffer
  | deleteDevices
  | CloseDevice (status : Int)
  deriving DecidableEq, Repr

abbrev Trace := List Event

/-- What a `throw` carries: an `int` status (`throw errorCode`), or anything
else (a failed `new`, a fault inside the outlet library), which only
`catch (...)` receives. -/
inductive Thrown
  | code (errorCode : Int)
  | other
  deriving DecidableEq, Repr

/-- How a piece of code ends: it falls through, it throws, it executes a
`return`, or it never comes back from a blocking read. -/
inductive Completion
  | normal
  | thrown (e : Thrown)
  | returned (code : Int)
  | blocked
  deriving DecidableEq, Repr

/-- The events a piece of code produced and how it ended. -/
structure Run where
  trace : Trace
  result : Completion
  deriving DecidableEq, Repr

/-- Sequential composition `a; b`: `b` runs only when `a` falls through. -/
def Run.seq (a b : Run) : Run :=
  match a.result with
  | .normal => ⟨a.trace ++ b.trace, b.result⟩
  | _ => a

/-- A statement list. -/
def block : List Run → Run
  | [] => ⟨[], .normal⟩
  | r :: rs => r.seq (block rs)

/-- The statement `try { body } catch (int e) {...} catch (...) {...}`, both
handlers given as one function of what was thrown. -/
def tryCatch (body : Run) (handler : Thrown → Run) : Run :=
  match body.result with
  | .thrown e => ⟨body.trace ++ (handler e).trace, (handler e).result⟩
  | _ => body

/-- One `std::cout << a << b << ...;` statement. -/
def say (os : List Out) : Run := ⟨os.map Event.cout, .normal⟩

/-- One statement with a visible effect that cannot fail. -/
def act (e : Event) : Run := ⟨[e], .normal⟩

/-- A statement that throws something other than an `int` when `fails`. -/
def mayThrow (fails : Bool) : Run :=
  if fails then ⟨[], .thrown .other⟩ else ⟨[], .normal⟩

/-- A `for (unsigned int i = 0; i < n; i++) body(i)` loop whose body only
produces items. -/
def forUpTo {α : Type} (n : Nat) (body : Nat → List α) : List α :=
  ((List.range n).map body).flatten

/-! ## `HandleError`, `PrintErrorMessage`, `OnClose` (main.cpp, lines 191-240) -/

/-- The function `HandleError`: throws the status when it is not the success status. -/
def HandleError (errorCode : Int) : Run :=
  if errorCode ≠ UNICORN_ERROR_SUCCESS then ⟨[], .thrown (.code errorCode)⟩
  else ⟨[], .normal⟩

/-- The `switch` of `PrintErrorMessage`: what it sends to the console for
`errorCode`. The cases are tried in source order. -/
def errorSentence (h : UnicornHeader) (errorCode : Int) : List Out :=
  if errorCode = h.UNICORN_ERROR_INVALID_PARAMETER then
    [.str "One of the specified parameters does not contain a valid value."]
  else if errorCode = h.UNICORN_ERROR_BLUETOOTH_INIT_FAILED then
    [.str "The initialization of the Bluetooth adapter failed."]
  else if errorCode = h.UNICORN_ERROR_BLUETOOTH_SOCKET_FAILED then
    [.str "The operation could not be performed because the Bluetooth socket failed."]
  else if errorCode = h.UNICORN_ERROR_OPEN_DEVICE_FAILED then
    [.str "The device could not be opened."]
  else if errorCode = h.UNICORN_ERROR_INVALID_CONFIGURATION then
    [.str "The configuration is invalid."]
  else if errorCode = h.UNICORN_ERROR_BUFFER_OVERFLOW then
    [.str "The acquisition buffer is full."]
  else if errorCode = h.UNICORN_ERROR_BUFFER_UNDERFLOW then
    [.str "The acquisition buffer is empty."]
  else if errorCode = h.UNICORN_ERROR_OPERATION_NOT_ALLOWED then
    [.str "The operation is not allowed."]
  else if errorCode = h.UNICORN_ERROR_INVALID_HANDLE then
    [.str "The specified connection handle is invalid."]
  else if errorCode = h.UNICORN_ERROR_GENERAL_ERROR then
    [.str "An unspecified error occurred."]
  else []

/-- The function `PrintErrorMessage`: everything it sends to the console. -/
def PrintErrorMessage (h : UnicornHeader) (errorCode : Int) : List Out :=
  [.endl, .str "An error occurred. Error Code: ", .num errorCode, .str " - "]
    ++ errorSentence h errorCode ++ [.endl]

/-- The handler `OnClose`: the new value of the global `stop`, whatever the signal number
and the old value. -/
def OnClose (_signal : Int) (_stop : Int) : Int := 1

def SIGINT : Int := 2

/-- Both handler pairs of `main` (lines 156-162 and 181-187) have the same
bodies. -/
def handlers (h : UnicornHeader) : Thrown → Run
  | .code errorCode => say (PrintErrorMessage h errorCode)
  | .other => say [.endl, .str "An unknown error occurred", .endl]

/-! ## The environment of a run -/

/-- One pass through the acquisition loop, as the environment decides it. -/
structure LoopStep where
  /-- The interrupt is delivered before the `while (!stop)` test of this pass. -/
  sigTop : Bool
  /-- The status `UNICORN_GetData` returns. -/
  status : Int
  /-- What the driver stored in the acquisition buffer during the call;
  `none` when it left the buffer as it was. -/
  written : Option (List Float32)
  /-- The interrupt is delivered after the `while` test and before the
  `if (!stop)` test that follows the read, for instance while the read blocks. -/
  sigRead : Bool
  deriving DecidableEq, Repr

/-- Everything the program receives from outside during one run. -/
structure Env where
  /-- Status and count of the first `UNICORN_GetAvailableDevices` call. -/
  enumStatus : Int
  availableDevicesCount : Nat
  /-- `new UNICORN_DEVICE_SERIAL[...]` fails. -/
  newDevicesFails : Bool
  /-- Status of the second enumeration call and the serials it stores; the count
  it reports is their number. -/
  listStatus : Int
  serials : List String
  /-- The content of a slot of `availableDevices` the driver did not write. -/
  unwritten : String
  openStatus : Int
  deviceHandle : Nat
  infoStatus : Int
  deviceInfo : UNICORN_DEVICE_INFORMATION
  /-- Status of `UNICORN_GetNumberOfAcquiredChannels` and the value of
  `numberOfChannelsToAcquire` after the call. -/
  channelsStatus : Int
  numberOfChannelsToAcquire : Nat
  configurationStatus : Int
  Channels : Nat → UNICORN_AMPLIFIER_CHANNEL
  /-- `new float[...]` fails. -/
  newBufferFails : Bool
  /-- The content of the freshly allocated acquisition buffer. -/
  heap : List Float32
  /-- Building the stream descriptor throws (line 111), before any outlet
  operation takes effect. -/
  outletFails : Bool
  startStatus : Int
  /-- The passes of the acquisition loop. When they are used up and the stop
  flag is still clear, the next read never returns. -/
  steps : List LoopStep
  stopStatus : Int
  closeStatus : Int

/-! ## `main` (main.cpp, lines 25-189) -/

/-- Lines 53-60: the loop that prints every serial and keeps in `deviceId` the
index of the last one equal to `DEVICE_SERIAL`. `i` is the loop index of the
head of the list still to visit. Returns the final `deviceId` and the output. -/
def scanDevices : List String → Nat → Nat → Nat × List Out
  | [], _, deviceId => (deviceId, [])
  | s :: rest, i, deviceId =>
    let r := scanDevices rest (i + 1) (if s = DEVICE_SERIAL then i else deviceId)
    (r.1, .str s :: .endl :: r.2)

/-- Lines 132-149: the acquisition loop. `stop` is the global flag and
`acquisitionBuffer` the content of the buffer on entry. Each pass first lets the
handler run when the interrupt is delivered, then tests the flag, reads, tests
the flag again before `HandleError`, and publishes. When the passes are used up
with the flag clear, the next read never returns. -/
def acquisitionLoop : List LoopStep → Int → List Float32 → Run
  | [], stop, _ => if stop ≠ 0 then ⟨[], .normal⟩ else ⟨[], .blocked⟩
  | s :: rest, stop, acquisitionBuffer =>
    let sig1 : Trace := if s.sigTop then [.OnClose] else []
    let stop1 := if s.sigTop then OnClose SIGINT stop else stop
    if stop1 ≠ 0 then ⟨sig1, .normal⟩
    else
      let sig2 : Trace := if s.sigRead then [.OnClose] else []
      let stop2 := if s.sigRead then OnClose SIGINT stop1 else stop1
      let buffer := s.written.getD acquisitionBuffer
      let read : Run := ⟨sig1 ++ sig2 ++ [.GetData s.status], .normal⟩
      let check : Run := if stop2 = 0 then HandleError s.status else ⟨[], .normal⟩
      block [read, check, act (.push_sample buffer), acquisitionLoop rest stop2 buffer]

/-- Lines 84-129: channel count, configuration, buffer, outlet, start of the
acquisition and installation of the interrupt handler. The status of
`UNICORN_GetNumberOfAcquiredChannels` is not assigned and not checked. -/
def configure (h : UnicornHeader) (env : Env) : Run :=
  let n := env.numberOfChannelsToAcquire
  block [
    act (.GetNumberOfAcquiredChannels env.channelsStatus),
    act (.GetConfiguration env.configurationStatus),
    HandleError env.configurationStatus,
    say [.endl, .str "Acquisition Configuration:", .endl],
    say [.str "Frame Length: ", .num FRAME_LENGTH, .endl],
    say [.str "Rate: ", .num h.UNICORN_SAMPLING_RATE, .endl],
    say [.str "Number Of Acquired Channels: ", .num n, .endl],
    say [.left, .setw 24, .str "Name:", .str "Unit:\tMin:\tMax:\tEnabled:", .endl],
    say (forUpTo n fun i =>
      [.left, .setw 24, .str (env.Channels i).name,
       .str (env.Channels i).unit, .str "\t",
       .flt (env.Channels i).range.1, .str "\t",
       .flt (env.Channels i).range.2, .str "\t",
       .num (env.Channels i).enabled, .endl]),
    mayThrow env.newBufferFails,
    act (.newBuffer (n * FRAME_LENGTH)),
    mayThrow env.outletFails,
    act (.stream_info STREAM_NAME STREAM_TYPE n h.UNICORN_SAMPLING_RATE env.deviceInfo.serial),
    act (.append_child_value "manufacturer" "g.tec"),
    act (.append_child "channels"),
    ⟨forUpTo n fun i =>
      [.append_child "channel",
       .append_child_value "label" (env.Channels i).name,
       .append_child_value "unit" (env.Channels i).unit], .normal⟩,
    act .stream_outlet,
    say [.endl, .str "LSL stream with name '", .str STREAM_NAME, .str "' and type '",
         .str STREAM_TYPE, .str "' ready", .endl],
    act (.StartAcquisition TESTSIGNAL_ENABLED env.startStatus),
    HandleError env.startStatus,
    say [.endl, .str "Data acquisition started", .endl],
    act .signal
  ]

/-- Lines 131-154: the acquisition loop and the stop of the acquisition. The
global `stop` is zero when the loop is entered: it is zero-initialised and only
the handler installed at line 129 writes it. -/
def acquisition (env : Env) : Run :=
  block [
    acquisitionLoop env.steps 0 env.heap,
    act (.StopAcquisition env.stopStatus),
    HandleError env.stopStatus,
    say [.endl, .str "Data acquisition stopped.", .endl]
  ]

/-- Lines 81-155: the body of the inner `try`. -/
def innerBody (h : UnicornHeader) (env : Env) : Run :=
  block [configure h env, acquisition env]

/-- Lines 80-179: the inner `try` with its handlers, then the release of the
two arrays and the close of the session. `acquisitionBuffer` is non-null at
line 165 exactly when the allocation of line 108 was executed. -/
def session (h : UnicornHeader) (env : Env) : Run :=
  let inner := tryCatch (innerBody h env) (handlers h)
  let allocated :=
    inner.trace.contains (.newBuffer (env.numberOfChannelsToAcquire * FRAME_LENGTH))
  block [
    inner,
    if allocated then act .deleteBuffer else ⟨[], .normal⟩,
    act .deleteDevices,
    act (.CloseDevice env.closeStatus),
    HandleError env.closeStatus,
    say [.str "Disconnected from Unicorn", .endl]
  ]

/-- Lines 36-60: both enumeration calls and the loop over the serials. -/
def enumerate (env : Env) : Run :=
  block [
    say [.str "Scanning...", .endl, .endl],
    act (.GetAvailableDevices false env.enumStatus),
    HandleError env.enumStatus,
    if env.availableDevicesCount < 1 then
      block [say [.str "No device available", .endl], ⟨[], .returned 1⟩]
    else ⟨[], .normal⟩,
    mayThrow env.newDevicesFails,
    act (.newDevices env.availableDevicesCount),
    act (.GetAvailableDevices true env.listStatus),
    HandleError env.listStatus,
    say [.str "Available devices:", .endl],
    say (scanDevices env.serials 0 0).2
  ]

/-- The array element `availableDevices[deviceId]` after the loop of lines 55-60. -/
def selectedSerial (env : Env) : String :=
  env.serials.getD (scanDevices env.serials 0 0).1 env.unwritten

/-- Lines 63-78: open the selected device and print what it says about itself. -/
def connect (env : Env) : Run :=
  block [
    say [.endl, .str "Trying to connect to '", .str (selectedSerial env), .str "'", .endl],
    act (.OpenDevice (selectedSerial env) env.openStatus),
    HandleError env.openStatus,
    say [.str "Connected to '", .str (selectedSerial env), .str "'", .endl],
    say [.str "Device Handle: ", .num env.deviceHandle, .endl],
    act (.GetDeviceInformation env.infoStatus),
    HandleError env.infoStatus,
    say [.str "EEG channels: ", .num env.deviceInfo.numberOfEegChannels, .endl],
    say [.str "Serial: ", .str env.deviceInfo.serial, .endl],
    say [.str "Firmware version: ", .str env.deviceInfo.firmwareVersion, .endl],
    say [.str "Device version: ", .str env.deviceInfo.deviceVersion, .endl],
    say [.str "PCB version: ", .str env.deviceInfo.pcbVersion, .endl],
    say [.str "Enclosure version: ", .str env.deviceInfo.enclosureVersion, .endl]
  ]

/-- Lines 34-179: the body of the outer `try`. -/
def outerBody (h : UnicornHeader) (env : Env) : Run :=
  block [enumerate env, connect env, session h env]

/-- The function `main`: the outer `try` with its handlers, then `return 0`. -/
def main (h : UnicornHeader) (env : Env) : Run :=
  block [tryCatch (outerBody h env) (handlers h), ⟨[], .returned 0⟩]

/-- The exit status of the process, when `main` returns. -/
def exitCode (r : Run) : Option Int :=
  match r.result with
  | .returned code => some code
  | _ => none

/-! ## Reading a trace -/

/-- The serials passed to `UNICORN_OpenDevice`, in call order. -/
def openedSerials (t : Trace) : List String :=
  t.filterMap fun e => match e with
    | .OpenDevice serial _ => some serial
    | _ => none

/-- The samples handed to the outlet, in call order. -/
def published (t : Trace) : List (List Float32) :=
  t.filterMap fun e => match e with
    | .push_sample sample => some sample
    | _ => none

/-- The statuses returned by `UNICORN_GetData`, in call order. -/
def reads (t : Trace) : List Int :=
  t.filterMap fun e => match e with
    | .GetData status => some status
    | _ => none

/-- What follows the first occurrence of `e` in a trace. -/
def after (e : Event) : Trace → Trace
  | [] => []
  | x :: t => if x = e then t else after e t

/-- What precedes the first occurrence of `e` in a trace. -/
def before (e : Event) : Trace → Trace
  | [] => []
  | x :: t => if x = e then [] else x :: before e t

/-- The part of the program an event can come from. -/
inductive Stage
  | console
  | enumerate
  | connect
  | configure
  | loop
  | teardown
  deriving DecidableEq, Repr

def Event.stage : Event → Stage
  | .cout _ => .console
  | .GetAvailableDevices _ _ => .enumerate
  | .newDevices _ => .enumerate
  | .OpenDevice _ _ => .connect
  | .GetDeviceInformation _ => .connect
  | .GetNumberOfAcquiredChannels _ => .configure
  | .GetConfiguration _ => .configure
  | .newBuffer _ => .configure
  | .stream_info _ _ _ _ _ => .configure
  | .append_child_value _ _ => .configure
  | .append_child _ => .configure
  | .stream_outlet => .configure
  | .StartAcquisition _ _ => .configure
  | .signal => .configure
  | .OnClose => .loop
  | .GetData _ => .loop
  | .push_sample _ => .loop
  | .StopAcquisition _ => .teardown
  | .deleteBuffer => .teardown
  | .deleteDevices => .teardown
  | .CloseDevice _ => .teardown

/-- A pass of the loop during which no interrupt arrives and the read succeeds. -/
abbrev LoopStep.quiet (s : LoopStep) : Prop :=
  s.sigTop = false ∧ s.sigRead = false ∧ s.status = 0

/-- The content of the acquisition buffer after all the given passes. -/
def lastBuffer : List LoopStep → List Float32 → List Float32
  | [], buffer => buffer
  | s :: rest, buffer => lastBuffer rest (s.written.getD buffer)

/-- The events of a sequence of quiet passes: a successful read, then the
publication of the buffer as the read left it, for each pass. -/
def quietTrace : List LoopStep → List Float32 → Trace
  | [], _ => []
  | s :: rest, buffer =>
    .GetData 0 :: .push_sample (s.written.getD buffer) :: quietTrace rest (s.written.getD buffer)

/-- The run gets as far as the `UNICORN_OpenDevice` call. -/
abbrev Env.enumerates (env : Env) : Prop :=
  env.enumStatus = 0 ∧ env.availableDevicesCount ≠ 0 ∧ env.newDevicesFails = false ∧
    env.listStatus = 0

/-- The run gets as far as the inner `try`: a session is open and described. -/
abbrev Env.connects (env : Env) : Prop :=
  env.enumerates ∧ env.openStatus = 0 ∧ env.infoStatus = 0

/-- The run gets as far as the acquisition loop. -/
abbrev Env.acquires (env : Env) : Prop :=
  env.connects ∧ env.configurationStatus = 0 ∧ env.newBufferFails = false ∧
    env.outletFails = false ∧ env.startStatus = 0

/-- What lines 164-187 add to the trace once the inner `try` statement is
left: the guarded release of the buffer, the release of the device list, the
close call, and then either the disconnect message or the message of the
status the close call returned. -/
def teardown (h : UnicornHeader) (env : Env) (allocated : Bool) : Trace :=
  (if allocated then [.deleteBuffer] else []) ++
    [.deleteDevices, .CloseDevice env.closeStatus] ++
    (if env.closeStatus = 0 then [.cout (.str "Disconnected from Unicorn"), .cout .endl]
     else (PrintErrorMessage h env.closeStatus).map .cout)

/-- The ten sentences of `PrintErrorMessage`, in source order. -/
def errorSentences : List String :=
  ["One of the specified parameters does not contain a valid value.",
   "The initialization of the Bluetooth adapter failed.",
   "The operation could not be performed because the Bluetooth socket failed.",
   "The device could not be opened.",
   "The configuration is invalid.",
   "The acquisition buffer is full.",
   "The acquisition buffer is empty.",
   "The operation is not allowed.",
   "The specified connection handle is invalid.",
   "An unspecified error occurred."]

/-! ## Concrete environments -/

def sampleChannel : UNICORN_AMPLIFIER_CHANNEL := ⟨"EEG 1", "uV", (0, 1), 1⟩

def sampleInfo : UNICORN_DEVICE_INFORMATION := ⟨8, "UN-2019.02.90", "1.0", "1.0", "1.0", "1.0"⟩

/-- A pass of the loop with no interrupt, whose read succeeds and stores `frame`. -/
def frameStep (frame : List Float32) : LoopStep := ⟨false, 0, some frame, false⟩

/-- A pass of the loop at whose test the interrupt has arrived. -/
def interruptStep : LoopStep := ⟨true, 0, none, false⟩

/-- One device with the configured serial, two channels, every driver call
succeeding, three frames read, then the interrupt at the loop test. -/
def sampleEnv : Env :=
  { enumStatus := 0
    availableDevicesCount := 1
    newDevicesFails := false
    listStatus := 0
    serials := ["UN-2019.02.90"]
    unwritten := ""
    openStatus := 0
    deviceHandle := 7
    infoStatus := 0
    deviceInfo := sampleInfo
    channelsStatus := 0
    numberOfChannelsToAcquire := 2
    configurationStatus := 0
    Channels := fun _ => sampleChannel
    newBufferFails := false
    heap := [7, 7]
    outletFails := false
    startStatus := 0
    steps := [frameStep [1, 2], frameStep [3, 4], frameStep [5, 6], interruptStep]
    stopStatus := 0
    closeStatus := 0 }

/-- A pass of the loop during which the interrupt arrives while the read is
under way; the read then returns the non-zero status 3 and stores nothing. -/
def swallowedStep : LoopStep := ⟨false, 3, none, true⟩

/-- The driver, outlet and heap operations of the acquisition and teardown
parts of a trace, in order: reads, publications, the stop call, the two
releases and the close call. Console output and interrupts are left out. -/
def operations (t : Trace) : Trace :=
  t.filter fun e => (e.stage = .loop ∨ e.stage = .teardown) ∧ e ≠ .OnClose

/-- After the call `e`, the message of status `c` is printed at once, and no
read and no publication follows. -/
def reported (h : UnicornHeader) (t : Trace) (e : Event) (c : Int) : Prop :=
  (PrintErrorMessage h c).map Event.cout <+: after e t ∧
    reads (after e t) = [] ∧ published (after e t) = []

/-! ## Basic facts about the control operators -/

@[simp] theorem seq_normal (t : Trace) (b : Run) :
    Run.seq ⟨t, .normal⟩ b = ⟨t ++ b.trace, b.result⟩ := rfl

@[simp] theorem seq_thrown (t : Trace) (e : Thrown) (b : Run) :
    Run.seq ⟨t, .thrown e⟩ b = ⟨t, .thrown e⟩ := rfl

@[simp] theorem seq_returned (t : Trace) (c : Int) (b : Run) :
    Run.seq ⟨t, .returned c⟩ b = ⟨t, .returned c⟩ := rfl

@[simp] theorem seq_blocked (t : Trace) (b : Run) :
    Run.seq ⟨t, .blocked⟩ b = ⟨t, .blocked⟩ := rfl

@[simp] theorem seq_skip (a : Run) : a.seq ⟨[], .normal⟩ = a := by
  obtain ⟨t, r⟩ := a
  cases r <;> simp [Run.seq]

theorem seq_of_normal {a : Run} (ha : a.result = .normal) (b : Run) :
    a.seq b = ⟨a.trace ++ b.trace, b.result⟩ := by
  obtain ⟨t, r⟩ := a
  simp only at ha
  subst ha
  rfl

theorem mem_seq {a b : Run} {e : Event} (he : e ∈ (a.seq b).trace) :
    e ∈ a.trace ∨ e ∈ b.trace := by
  obtain ⟨t, r⟩ := a
  cases r <;> simp_all [Run.seq]

theorem block_all (P : Event → Prop) (rs : List Run)
    (hrs : ∀ r ∈ rs, ∀ e ∈ r.trace, P e) : ∀ e ∈ (block rs).trace, P e := by
  induction rs with
  | nil => simp [block]
  | cons r rs ih =>
    intro e he
    rcases mem_seq he with h | h
    · exact hrs r (List.mem_cons_self _ _) e h
    · exact ih (fun r hr => hrs r (List.mem_cons_of_mem _ hr)) e h

theorem tryCatch_all (P : Event → Prop) (body : Run) (handler : Thrown → Run)
    (hb : ∀ e ∈ body.trace, P e) (hh : ∀ x, ∀ e ∈ (handler x).trace, P e) :
    ∀ e ∈ (tryCatch body handler).trace, P e := by
  obtain ⟨t, r⟩ := body
  cases r <;> simp_all [tryCatch]
  intro e he
  rcases he with he | he
  · exact hb e he
  · exact hh _ e he

theorem tryCatch_seq {a : Run} (ha : a.result = .normal) (b : Run) (handler : Thrown → Run) :
    tryCatch (a.seq b) handler = a.seq (tryCatch b handler) := by
  obtain ⟨t, r⟩ := a
  simp only at ha
  subst ha
  obtain ⟨tb, rb⟩ := b
  cases rb <;> simp [tryCatch]

@[simp] theorem HandleError_zero : HandleError 0 = ⟨[], .normal⟩ := rfl

theorem HandleError_ne {c : Int} (hc : c ≠ 0) : HandleError c = ⟨[], .thrown (.code c)⟩ := by
  simp [HandleError, UNICORN_ERROR_SUCCESS, hc]

theorem HandleError_trace (c : Int) : (HandleError c).trace = [] := by
  by_cases hc : c = 0
  · simp [hc]
  · simp [HandleError_ne hc]

theorem handlers_result (h : UnicornHeader) (x : Thrown) : (handlers h x).result = .normal := by
  cases x <;> rfl

theorem handlers_console (h : UnicornHeader) (x : Thrown) :
    ∀ e ∈ (handlers h x).trace, e.stage = .console := by
  cases x <;> simp [handlers, say, Event.stage]

/-! ## Facts about `after` and `before` -/

@[simp] theorem after_nil (e : Event) : after e [] = [] := rfl

@[simp] theorem after_cons (e x : Event) (t : Trace) :
    after e (x :: t) = if x = e then t else after e t := rfl

@[simp] theorem before_nil (e : Event) : before e [] = [] := rfl

@[simp] theorem before_cons (e x : Event) (t : Trace) :
    before e (x :: t) = if x = e then [] else x :: before e t := rfl

theorem after_append_of_not_mem {e : Event} {l : Trace} (t : Trace) (hl : e ∉ l) :
    after e (l ++ t) = after e t := by
  induction l with
  | nil => rfl
  | cons x l ih =>
    simp only [List.mem_cons, not_or] at hl
    simp [Ne.symm hl.1, ih hl.2]


/-! ## The acquisition loop -/

/-- Once the flag is set the loop is left at its next test, without a read. -/
theorem loop_stopped (steps : List LoopStep) (stop : Int) (buffer : List Float32)
    (hs : stop ≠ 0) :
    acquisitionLoop steps stop buffer =
      ⟨if (steps.head?.map (·.sigTop)) = some true then [.OnClose] else [], .normal⟩ := by
  cases steps with
  | nil => simp [acquisitionLoop, hs]
  | cons s rest =>
    cases hsig : s.sigTop <;> simp [acquisitionLoop, hs, hsig, OnClose]

/-- Quiet passes read and publish, and leave the flag clear. -/
theorem loop_quiet (q rest : List LoopStep) (buffer : List Float32)
    (hq : ∀ s ∈ q, s.quiet) :
    acquisitionLoop (q ++ rest) 0 buffer =
      ⟨quietTrace q buffer ++ (acquisitionLoop rest 0 (lastBuffer q buffer)).trace,
       (acquisitionLoop rest 0 (lastBuffer q buffer)).result⟩ := by
  induction q generalizing buffer with
  | nil => simp [quietTrace, lastBuffer]
  | cons s q ih =>
    obtain ⟨h1, h2, h3⟩ := hq s (List.mem_cons_self _ _)
    have ih := ih (s.written.getD buffer) fun x hx => hq x (List.mem_cons_of_mem _ hx)
    simp [acquisitionLoop, block, act, h1, h2, h3, ih, quietTrace, lastBuffer]

/-- The pass during which the interrupt arrives at the loop test. -/
theorem loop_sigTop (s : LoopStep) (rest : List LoopStep) (buffer : List Float32)
    (h1 : s.sigTop = true) :
    acquisitionLoop (s :: rest) 0 buffer = ⟨[.OnClose], .normal⟩ := by
  simp [acquisitionLoop, h1, OnClose]

/-- The pass during which the interrupt arrives while the read is under way:
whatever the read returns, the buffer is published and the loop is left. -/
theorem loop_sigRead (s : LoopStep) (rest : List LoopStep) (buffer : List Float32)
    (h1 : s.sigTop = false) (h2 : s.sigRead = true) :
    acquisitionLoop (s :: rest) 0 buffer =
      ⟨.OnClose :: .GetData s.status :: .push_sample (s.written.getD buffer) ::
        (if (rest.head?.map (·.sigTop)) = some true then [.OnClose] else []), .normal⟩ := by
  simp [acquisitionLoop, block, act, h1, h2, OnClose, loop_stopped]

/-- The pass whose read fails while the flag is clear. -/
theorem loop_fault (s : LoopStep) (rest : List LoopStep) (buffer : List Float32)
    (h1 : s.sigTop = false) (h2 : s.sigRead = false) (h3 : s.status ≠ 0) :
    acquisitionLoop (s :: rest) 0 buffer = ⟨[.GetData s.status], .thrown (.code s.status)⟩ := by
  simp [acquisitionLoop, block, h1, h2, HandleError_ne h3]

/-- The loop produces nothing but interrupts, reads and publications. -/
theorem loop_trace_mem (steps : List LoopStep) (stop : Int) (buffer : List Float32) :
    ∀ e ∈ (acquisitionLoop steps stop buffer).trace,
      e = .OnClose ∨ (∃ c, e = .GetData c) ∨ ∃ b, e = .push_sample b := by
  induction steps generalizing stop buffer with
  | nil => intro e; simp only [acquisitionLoop]; split <;> simp
  | cons s rest ih =>
    intro e
    have ih0 := ih 0 (s.written.getD buffer) e
    have ih1 := ih 1 (s.written.getD buffer) e
    by_cases hs : stop = 0 <;> by_cases hc : s.status = 0 <;>
      cases h1 : s.sigTop <;> cases h2 : s.sigRead <;>
      simp [acquisitionLoop, block, act, h1, h2, hs, hc, OnClose, HandleError_ne] <;>
      aesop

theorem loop_stage (steps : List LoopStep) (stop : Int) (buffer : List Float32) :
    ∀ e ∈ (acquisitionLoop steps stop buffer).trace, e.stage = .loop := by
  intro e he
  rcases loop_trace_mem steps stop buffer e he with h | ⟨c, h⟩ | ⟨b, h⟩ <;> subst h <;> rfl

theorem quietTrace_stage (q : List LoopStep) (buffer : List Float32) :
    ∀ e ∈ quietTrace q buffer, e.stage = .loop := by
  induction q generalizing buffer with
  | nil => simp [quietTrace]
  | cons s q ih =>
    intro e he
    simp only [quietTrace, List.mem_cons] at he
    rcases he with h | h | h
    · subst h; rfl
    · subst h; rfl
    · exact ih _ e h

/-- The loop ends in one of three ways: it is left at its test, a read fault is
thrown, or a read never returns. -/
theorem loop_result (steps : List LoopStep) (stop : Int) (buffer : List Float32) :
    (acquisitionLoop steps stop buffer).result = .normal ∨
      (∃ c, c ≠ 0 ∧ (acquisitionLoop steps stop buffer).result = .thrown (.code c)) ∨
      (acquisitionLoop steps stop buffer).result = .blocked := by
  induction steps generalizing stop buffer with
  | nil => simp only [acquisitionLoop]; split <;> simp
  | cons s rest ih =>
    have ih0 := ih 0 (s.written.getD buffer)
    have ih1 := ih 1 (s.written.getD buffer)
    by_cases hs : stop = 0 <;> by_cases hc : s.status = 0 <;>
      cases h1 : s.sigTop <;> cases h2 : s.sigRead <;>
      simp [acquisitionLoop, block, act, h1, h2, hs, hc, OnClose, HandleError_ne] <;>
      first | exact ih0 | exact ih1

/-! ## The stages of `main` -/

theorem say_stage (os : List Out) : ∀ e ∈ (say os).trace, e.stage = .console := by
  simp [say, Event.stage]

theorem enumerate_stage (env : Env) :
    ∀ e ∈ (enumerate env).trace, e.stage = .console ∨ e.stage = .enumerate := by
  apply block_all (fun e => e.stage = .console ∨ e.stage = .enumerate)
  simp only [List.forall_mem_cons, List.not_mem_nil, false_imp_iff, implies_true, and_true,
    mayThrow, HandleError_trace]
  repeat' apply And.intro
  all_goals first
    | exact fun e he => Or.inl (say_stage _ e he)
    | (split <;> simp [block, say, act, Event.stage]; done)
    | (simp [act, Event.stage]; done)

theorem connect_stage (env : Env) :
    ∀ e ∈ (connect env).trace, e.stage = .console ∨ e.stage = .connect := by
  apply block_all (fun e => e.stage = .console ∨ e.stage = .connect)
  simp only [List.forall_mem_cons, List.not_mem_nil, false_imp_iff, implies_true, and_true,
    HandleError_trace]
  repeat' apply And.intro
  all_goals first
    | exact fun e he => Or.inl (say_stage _ e he)
    | (simp [act, Event.stage]; done)

theorem configure_stage (h : UnicornHeader) (env : Env) :
    ∀ e ∈ (configure h env).trace, e.stage = .console ∨ e.stage = .configure := by
  apply block_all (fun e => e.stage = .console ∨ e.stage = .configure)
  simp only [List.forall_mem_cons, List.not_mem_nil, false_imp_iff, implies_true, and_true,
    HandleError_trace, mayThrow]
  repeat' apply And.intro
  all_goals first
    | exact fun e he => Or.inl (say_stage _ e he)
    | (split <;> simp [Event.stage]; done)
    | (simp [act, Event.stage]; done)
    | (simp only [forUpTo, List.mem_flatten, List.mem_map, List.mem_range]
       rintro e ⟨l, ⟨i, -, rfl⟩, he⟩
       simp only [List.mem_cons, List.mem_singleton, List.not_mem_nil, or_false] at he
       rcases he with rfl | rfl | rfl <;> simp [Event.stage])

theorem enumerate_ok (env : Env) (he : env.enumerates) : (enumerate env).result = .normal := by
  obtain ⟨h1, h2, h3, h4⟩ := he
  have hlt : ¬ env.availableDevicesCount < 1 := by omega
  simp [enumerate, block, say, act, mayThrow, h1, hlt, h3, h4]

theorem connect_ok (env : Env) (h1 : env.openStatus = 0) (h2 : env.infoStatus = 0) :
    (connect env).result = .normal := by
  simp [connect, block, say, act, h1, h2]

theorem configure_ok (h : UnicornHeader) (env : Env) (h1 : env.configurationStatus = 0)
    (h2 : env.newBufferFails = false) (h3 : env.outletFails = false)
    (h4 : env.startStatus = 0) : (configure h env).result = .normal := by
  simp [configure, block, say, act, mayThrow, h1, h2, h3, h4]

theorem mem_seq_left {a : Run} (b : Run) {e : Event} (he : e ∈ a.trace) :
    e ∈ (a.seq b).trace := by
  obtain ⟨t, r⟩ := a
  cases r <;> simp_all [Run.seq]

theorem mem_tryCatch_left {a : Run} (handler : Thrown → Run) {e : Event} (he : e ∈ a.trace) :
    e ∈ (tryCatch a handler).trace := by
  obtain ⟨t, r⟩ := a
  cases r <;> simp_all [tryCatch]

/-- The buffer allocation of line 108 is executed exactly when the configuration
query succeeds and `new` does not fail. -/
theorem newBuffer_mem_configure (h : UnicornHeader) (env : Env) :
    Event.newBuffer (env.numberOfChannelsToAcquire * FRAME_LENGTH) ∈ (configure h env).trace ↔
      env.configurationStatus = 0 ∧ env.newBufferFails = false := by
  by_cases h1 : env.configurationStatus = 0 <;> cases h2 : env.newBufferFails <;>
    cases h3 : env.outletFails <;> by_cases h4 : env.startStatus = 0 <;>
    simp [configure, block, say, act, mayThrow, h1, h2, h3, h4, HandleError_ne, forUpTo]

theorem acquisition_stage (env : Env) :
    ∀ e ∈ (acquisition env).trace,
      e.stage = .console ∨ e.stage = .loop ∨ e = .StopAcquisition env.stopStatus := by
  apply block_all
    (fun e => e.stage = .console ∨ e.stage = .loop ∨ e = .StopAcquisition env.stopStatus)
  simp only [List.forall_mem_cons, List.not_mem_nil, false_imp_iff, implies_true, and_true,
    true_and, HandleError_trace]
  refine ⟨?_, ?_, ?_⟩
  · exact fun e he => Or.inr (Or.inl (loop_stage _ _ _ e he))
  · simp [act]
  · exact fun e he => Or.inl (say_stage _ e he)

theorem innerBody_stage (h : UnicornHeader) (env : Env) :
    ∀ e ∈ (innerBody h env).trace,
      e.stage = .console ∨ e.stage = .configure ∨ e.stage = .loop ∨
        e = .StopAcquisition env.stopStatus := by
  apply block_all
    (fun e => e.stage = .console ∨ e.stage = .configure ∨ e.stage = .loop ∨
        e = .StopAcquisition env.stopStatus)
  simp only [List.forall_mem_cons, List.not_mem_nil, false_imp_iff, implies_true, and_true]
  refine ⟨?_, ?_⟩
  · intro e he
    rcases configure_stage h env e he with h | h
    · exact Or.inl h
    · exact Or.inr (Or.inl h)
  · intro e he
    rcases acquisition_stage env e he with h | h | h
    · exact Or.inl h
    · exact Or.inr (Or.inr (Or.inl h))
    · exact Or.inr (Or.inr (Or.inr h))

/-- The guard of line 165: the buffer pointer is non-null exactly when the
configuration query succeeded and the allocation did not fail. -/
theorem allocated_iff (h : UnicornHeader) (env : Env) :
    (tryCatch (innerBody h env) (handlers h)).trace.contains
        (.newBuffer (env.numberOfChannelsToAcquire * FRAME_LENGTH)) =
      decide (env.configurationStatus = 0 ∧ env.newBufferFails = false) := by
  have hc : ∀ (l : Trace) (e : Event), l.contains e = true ↔ e ∈ l := by
    intro l e
    simp
  rw [Bool.eq_iff_iff, hc, decide_eq_true_iff, ← newBuffer_mem_configure h env]
  constructor
  · intro hm
    have := tryCatch_all
      (fun e => e.stage = .console ∨ e ∈ (configure h env).trace ∨ e.stage = .loop ∨
        e.stage = .teardown) (innerBody h env) (handlers h) ?_ ?_ _ hm
    · simpa [Event.stage] using this
    · intro e he
      rcases mem_seq he with hm | hm
      · exact Or.inr (Or.inl hm)
      · simp only [block, seq_skip] at hm
        rcases acquisition_stage env e hm with h | h | h
        · exact Or.inl h
        · exact Or.inr (Or.inr (Or.inl h))
        · subst h; exact Or.inr (Or.inr (Or.inr rfl))
    · exact fun x e he => Or.inl (handlers_console h x e he)
  · intro hm
    exact mem_tryCatch_left _ (mem_seq_left _ hm)

theorem seq_of_thrown {a : Run} {x : Thrown} (ha : a.result = .thrown x) (b : Run) :
    a.seq b = a := by
  obtain ⟨t, r⟩ := a
  simp only at ha
  subst ha
  rfl

theorem seq_of_blocked {a : Run} (ha : a.result = .blocked) (b : Run) : a.seq b = a := by
  obtain ⟨t, r⟩ := a
  simp only at ha
  subst ha
  rfl

theorem tryCatch_of_thrown {a : Run} {x : Thrown} (ha : a.result = .thrown x)
    (handler : Thrown → Run) :
    tryCatch a handler = ⟨a.trace ++ (handler x).trace, (handler x).result⟩ := by
  obtain ⟨t, r⟩ := a
  simp only at ha
  subst ha
  rfl

/-- The configuration stage either falls through, when its three checks pass
and nothing else is thrown, or throws. -/
theorem configure_result (h : UnicornHeader) (env : Env) :
    ((configure h env).result = .normal ∧ env.configurationStatus = 0 ∧
        env.newBufferFails = false ∧ env.outletFails = false ∧ env.startStatus = 0) ∨
      ((∃ x, (configure h env).result = .thrown x) ∧
        ¬ (env.configurationStatus = 0 ∧ env.newBufferFails = false ∧
          env.outletFails = false ∧ env.startStatus = 0)) := by
  by_cases h1 : env.configurationStatus = 0 <;> cases h2 : env.newBufferFails <;>
    cases h3 : env.outletFails <;> by_cases h4 : env.startStatus = 0 <;>
    simp [configure, block, say, act, mayThrow, h1, h2, h3, h4, HandleError_ne]

/-- The inner `try` statement never lets a throw through: it is left normally,
unless a read never returns. -/
theorem inner_result (h : UnicornHeader) (env : Env) :
    (tryCatch (innerBody h env) (handlers h)).result =
      if env.configurationStatus = 0 ∧ env.newBufferFails = false ∧ env.outletFails = false ∧
          env.startStatus = 0 ∧ (acquisitionLoop env.steps 0 env.heap).result = .blocked
      then .blocked else .normal := by
  rcases configure_result h env with ⟨hr, hok⟩ | ⟨⟨x, hr⟩, hno⟩
  · simp only [innerBody, acquisition, block, seq_of_normal hr, hok, true_and, and_self]
    rcases loop_result env.steps 0 env.heap with hl | ⟨c, -, hl⟩ | hl
    · rw [seq_of_normal hl, if_neg (by simp [hl])]
      by_cases hs : env.stopStatus = 0
      · simp [act, say, hs, tryCatch]
      · simp [act, say, HandleError_ne hs, tryCatch, handlers]
    · rw [seq_of_thrown hl, if_neg (by simp [hl])]
      simp [tryCatch, hl, handlers, say]
    · rw [seq_of_blocked hl, if_pos hl]
      simp [tryCatch, hl]
  · rw [if_neg (fun hc => hno ⟨hc.1, hc.2.1, hc.2.2.1, hc.2.2.2.1⟩)]
    simp only [innerBody, block, seq_of_thrown hr]
    rw [tryCatch_of_thrown hr]
    exact handlers_result h x

/-- The run of `main` once a session is open and described, when the inner `try`
statement is left normally: the release of lines 164-179 follows and the
process exits with 0. -/
theorem main_of_inner_normal (h : UnicornHeader) (env : Env) (hc : env.connects)
    (hi : (tryCatch (innerBody h env) (handlers h)).result = .normal) :
    main h env =
      ⟨(enumerate env).trace ++ ((connect env).trace ++
        ((tryCatch (innerBody h env) (handlers h)).trace ++
          teardown h env (decide (env.configurationStatus = 0 ∧ env.newBufferFails = false)))),
       .returned 0⟩ := by
  obtain ⟨he, ho, hinfo⟩ := hc
  simp only [main, outerBody, block, seq_of_normal (enumerate_ok env he),
    seq_of_normal (connect_ok env ho hinfo), session, allocated_iff, seq_of_normal hi, seq_skip]
  by_cases hcl : env.closeStatus = 0
  · cases hd : decide (env.configurationStatus = 0 ∧ env.newBufferFails = false) <;>
      simp [act, say, hcl, tryCatch, teardown]
  · cases hd : decide (env.configurationStatus = 0 ∧ env.newBufferFails = false) <;>
      simp [act, say, hcl, HandleError_ne hcl, tryCatch, teardown, handlers]

/-- The run of `main` when a read never returns. -/
theorem main_of_inner_blocked (h : UnicornHeader) (env : Env) (hc : env.connects)
    (hi : (tryCatch (innerBody h env) (handlers h)).result = .blocked) :
    main h env =
      ⟨(enumerate env).trace ++ ((connect env).trace ++
        (tryCatch (innerBody h env) (handlers h)).trace), .blocked⟩ := by
  obtain ⟨he, ho, hinfo⟩ := hc
  simp only [main, outerBody, block, seq_of_normal (enumerate_ok env he),
    seq_of_normal (connect_ok env ho hinfo), session, allocated_iff, seq_of_blocked hi, seq_skip]
  generalize tryCatch (innerBody h env) (handlers h) = inner at hi
  obtain ⟨t, r⟩ := inner
  simp only at hi
  subst hi
  rfl

theorem teardown_stage (h : UnicornHeader) (env : Env) (allocated : Bool) :
    ∀ e ∈ teardown h env allocated, e.stage = .console ∨ e.stage = .teardown := by
  intro e he
  simp only [teardown, List.mem_append] at he
  rcases he with (he | he) | he
  · split at he
    · rw [List.mem_singleton] at he
      subst he
      exact Or.inr rfl
    · cases he
  · simp only [List.mem_cons, List.mem_singleton, List.not_mem_nil, or_false] at he
    rcases he with rfl | rfl <;> exact Or.inr rfl
  · split at he
    · simp only [List.mem_cons, List.mem_singleton, List.not_mem_nil, or_false] at he
      rcases he with rfl | rfl <;> exact Or.inl rfl
    · obtain ⟨o, -, rfl⟩ := List.mem_map.1 he
      exact Or.inl rfl

theorem inner_stage (h : UnicornHeader) (env : Env) :
    ∀ e ∈ (tryCatch (innerBody h env) (handlers h)).trace,
      e.stage = .console ∨ e.stage = .configure ∨ e.stage = .loop ∨
        e = .StopAcquisition env.stopStatus := by
  apply tryCatch_all
    (fun e => e.stage = .console ∨ e.stage = .configure ∨ e.stage = .loop ∨
        e = .StopAcquisition env.stopStatus)
  · exact innerBody_stage h env
  · exact fun x e he => Or.inl (handlers_console h x e he)

/-- A run that gets to the open call: the enumeration, then the connection
stage, then events that are neither enumeration nor connection events. -/
theorem main_trace_of_enumerates (h : UnicornHeader) (env : Env) (he : env.enumerates) :
    ∃ rest, (main h env).trace = (enumerate env).trace ++ ((connect env).trace ++ rest) ∧
      ∀ e ∈ rest, e.stage ≠ .enumerate ∧ e.stage ≠ .connect := by
  by_cases ho : env.openStatus = 0
  · by_cases hinfo : env.infoStatus = 0
    · have hi := inner_result h env
      split at hi
      · refine ⟨_, by rw [main_of_inner_blocked h env ⟨he, ho, hinfo⟩ hi], ?_⟩
        intro e hm
        rcases inner_stage h env e hm with h | h | h | h <;>
          first | (simp [h]; done) | (subst h; simp [Event.stage]; done)
      · refine ⟨_, by rw [main_of_inner_normal h env ⟨he, ho, hinfo⟩ hi], ?_⟩
        intro e hm
        rcases List.mem_append.1 hm with hm | hm
        · rcases inner_stage h env e hm with h | h | h | h <;>
          first | (simp [h]; done) | (subst h; simp [Event.stage]; done)
        · rcases teardown_stage h env _ e hm with h | h <;> simp [h]
    · have hr : (connect env).result = .thrown (.code env.infoStatus) := by
        simp [connect, block, say, act, ho, HandleError_ne hinfo]
      refine ⟨(handlers h (.code env.infoStatus)).trace, ?_, ?_⟩
      · simp only [main, outerBody, block, seq_of_normal (enumerate_ok env he),
          seq_of_thrown hr, seq_skip]
        simp [tryCatch, hr, handlers, say]
      · intro e hm
        simp [handlers_console h _ e hm]
  · have hr : (connect env).result = .thrown (.code env.openStatus) := by
      simp [connect, block, say, act, HandleError_ne ho]
    refine ⟨(handlers h (.code env.openStatus)).trace, ?_, ?_⟩
    · simp only [main, outerBody, block, seq_of_normal (enumerate_ok env he),
        seq_of_thrown hr, seq_skip]
      simp [tryCatch, hr, handlers, say]
    · intro e hm
      simp [handlers_console h _ e hm]

/-! ## Device selection -/

theorem scanDevices_spec (g : String) (rest seen : List String) (deviceId : Nat)
    (hin : DEVICE_SERIAL ∈ seen → (seen ++ rest).getD deviceId g = DEVICE_SERIAL)
    (hout : DEVICE_SERIAL ∉ seen → deviceId = 0) :
    (DEVICE_SERIAL ∈ seen ++ rest →
        (seen ++ rest).getD (scanDevices rest seen.length deviceId).1 g = DEVICE_SERIAL) ∧
      (DEVICE_SERIAL ∉ seen ++ rest → (scanDevices rest seen.length deviceId).1 = 0) := by
  induction rest generalizing seen deviceId with
  | nil =>
    simp only [scanDevices, List.append_nil] at *
    exact ⟨hin, hout⟩
  | cons s rest ih =>
    have hlen : (seen ++ [s]).length = seen.length + 1 := by simp
    have hcat : (seen ++ [s]) ++ rest = seen ++ s :: rest := by simp
    have := ih (seen ++ [s]) (if s = DEVICE_SERIAL then seen.length else deviceId) ?_ ?_
    · rw [hlen, hcat] at this
      simpa [scanDevices] using this
    · intro hm
      rw [hcat]
      by_cases hs : s = DEVICE_SERIAL
      · rw [if_pos hs, List.getD_append_right _ _ _ _ (Nat.le_refl _), hs]
        simp
      · have hm' : DEVICE_SERIAL ∈ seen := by
          rcases List.mem_append.1 hm with h | h
          · exact h
          · exact absurd (List.mem_singleton.1 h).symm hs
        simpa [hs] using hin hm'
    · intro hm
      by_cases hs : s = DEVICE_SERIAL
      · exact absurd (by simp [hs]) hm
      · simpa [hs] using hout (fun h => hm (List.mem_append_left _ h))

/-- The element the open call receives: the configured serial when it was
enumerated, the first enumerated serial otherwise. -/
theorem selectedSerial_eq (env : Env) (first : String) (others : List String)
    (hs : env.serials = first :: others) :
    selectedSerial env = if DEVICE_SERIAL ∈ env.serials then DEVICE_SERIAL else first := by
  have := scanDevices_spec env.unwritten env.serials [] 0 (by simp) (by simp)
  simp only [List.nil_append, List.length_nil] at this
  unfold selectedSerial
  split
  · next hm => exact this.1 hm
  · next hm => rw [this.2 hm, hs]; rfl

theorem openedSerials_append (a b : Trace) :
    openedSerials (a ++ b) = openedSerials a ++ openedSerials b := by
  simp [openedSerials]

theorem openedSerials_eq_nil {t : Trace} (ht : ∀ e ∈ t, e.stage ≠ .connect) :
    openedSerials t = [] := by
  rw [openedSerials, List.filterMap_eq_nil_iff]
  intro e he
  have := ht e he
  cases e <;> first | rfl | exact absurd rfl this

theorem openedSerials_connect (env : Env) :
    openedSerials (connect env).trace = [selectedSerial env] := by
  by_cases ho : env.openStatus = 0 <;> by_cases hinfo : env.infoStatus = 0 <;>
    simp [connect, block, say, act, ho, hinfo, HandleError_ne, openedSerials]

/-! ## Runs that get to the acquisition loop -/

theorem inner_of_configured (h : UnicornHeader) (env : Env)
    (hr : (configure h env).result = .normal) :
    tryCatch (innerBody h env) (handlers h) =
      ⟨(configure h env).trace ++ (tryCatch (acquisition env) (handlers h)).trace,
       (tryCatch (acquisition env) (handlers h)).result⟩ := by
  simp only [innerBody, block, seq_skip]
  rw [tryCatch_seq hr, seq_of_normal hr]

theorem not_mem_of_stages {e : Event} {t : Trace} {a b : Stage}
    (ht : ∀ x ∈ t, x.stage = a ∨ x.stage = b) (ha : e.stage ≠ a) (hb : e.stage ≠ b) : e ∉ t := by
  intro hm
  rcases ht e hm with h | h
  · exact ha h
  · exact hb h

/-- The run of `main` when the acquisition loop is reached and left, normally or
by a read fault: set-up, then the loop and the stop of the acquisition under the
inner handlers, then the release of both arrays and the close of the session;
the process exits with 0. -/
theorem main_of_acquires (h : UnicornHeader) (env : Env) (ha : env.acquires)
    (hi : (tryCatch (acquisition env) (handlers h)).result = .normal) :
    main h env =
      ⟨(enumerate env).trace ++ ((connect env).trace ++ ((configure h env).trace ++
        ((tryCatch (acquisition env) (handlers h)).trace ++ teardown h env true))),
       .returned 0⟩ := by
  obtain ⟨hc, h1, h2, h3, h4⟩ := ha
  have hin := inner_of_configured h env (configure_ok h env h1 h2 h3 h4)
  rw [main_of_inner_normal h env hc (by rw [hin]; exact hi), hin]
  simp [h1, h2]

/-- What follows a loop or teardown event in such a run is found after the
set-up. -/
theorem after_main_of_acquires (h : UnicornHeader) (env : Env) (ha : env.acquires)
    (hi : (tryCatch (acquisition env) (handlers h)).result = .normal) (e : Event)
    (he : e.stage = .loop ∨ e.stage = .teardown) :
    after e (main h env).trace =
      after e ((tryCatch (acquisition env) (handlers h)).trace ++ teardown h env true) := by
  rw [main_of_acquires h env ha hi]
  simp only
  rw [after_append_of_not_mem, after_append_of_not_mem, after_append_of_not_mem]
  · exact not_mem_of_stages (configure_stage h env) (by rcases he with h | h <;> simp [h])
      (by rcases he with h | h <;> simp [h])
  · exact not_mem_of_stages (connect_stage env) (by rcases he with h | h <;> simp [h])
      (by rcases he with h | h <;> simp [h])
  · exact not_mem_of_stages (enumerate_stage env) (by rcases he with h | h <;> simp [h])
      (by rcases he with h | h <;> simp [h])

theorem published_append (a b : Trace) : published (a ++ b) = published a ++ published b := by
  simp [published]

theorem reads_append (a b : Trace) : reads (a ++ b) = reads a ++ reads b := by
  simp [reads]

theorem published_eq_nil {t : Trace} (ht : ∀ e ∈ t, e.stage ≠ .loop) : published t = [] := by
  rw [published, List.filterMap_eq_nil_iff]
  intro e he
  have := ht e he
  cases e <;> first | rfl | exact absurd rfl this

theorem reads_eq_nil {t : Trace} (ht : ∀ e ∈ t, e.stage ≠ .loop) : reads t = [] := by
  rw [reads, List.filterMap_eq_nil_iff]
  intro e he
  have := ht e he
  cases e <;> first | rfl | exact absurd rfl this

theorem setup_not_loop (h : UnicornHeader) (env : Env) :
    (∀ e ∈ (enumerate env).trace, e.stage ≠ .loop) ∧
      (∀ e ∈ (connect env).trace, e.stage ≠ .loop) ∧
      (∀ e ∈ (configure h env).trace, e.stage ≠ .loop) ∧
      (∀ b, ∀ e ∈ teardown h env b, e.stage ≠ .loop) := by
  refine ⟨fun e he => ?_, fun e he => ?_, fun e he => ?_, fun b e he => ?_⟩
  · rcases enumerate_stage env e he with h | h <;> simp [h]
  · rcases connect_stage env e he with h | h <;> simp [h]
  · rcases configure_stage h env e he with h | h <;> simp [h]
  · rcases teardown_stage h env b e he with h | h <;> simp [h]

/-- The samples published during such a run are those of the loop. -/
theorem published_main_of_acquires (h : UnicornHeader) (env : Env) (ha : env.acquires)
    (hi : (tryCatch (acquisition env) (handlers h)).result = .normal) :
    published (main h env).trace =
      published (tryCatch (acquisition env) (handlers h)).trace := by
  obtain ⟨h1, h2, h3, h4⟩ := setup_not_loop h env
  rw [main_of_acquires h env ha hi]
  simp only [published_append, published_eq_nil h1, published_eq_nil h2, published_eq_nil h3,
    published_eq_nil (h4 true), List.nil_append, List.append_nil]

/-- The acquisition stage when the loop is left at its test. -/
theorem acquisition_of_loop_normal (h : UnicornHeader) (env : Env) (t : Trace)
    (hl : acquisitionLoop env.steps 0 env.heap = ⟨t, .normal⟩) :
    tryCatch (acquisition env) (handlers h) =
      ⟨t ++ .StopAcquisition env.stopStatus ::
        (if env.stopStatus = 0 then
          [.cout .endl, .cout (.str "Data acquisition stopped."), .cout .endl]
         else (PrintErrorMessage h env.stopStatus).map .cout), .normal⟩ := by
  by_cases hs : env.stopStatus = 0
  · simp [acquisition, block, hl, act, say, hs, tryCatch]
  · simp [acquisition, block, hl, act, say, hs, HandleError_ne hs, tryCatch, handlers]

/-- The acquisition stage when a read fault leaves the loop. -/
theorem acquisition_of_loop_fault (h : UnicornHeader) (env : Env) (t : Trace) (c : Int)
    (hl : acquisitionLoop env.steps 0 env.heap = ⟨t, .thrown (.code c)⟩) :
    tryCatch (acquisition env) (handlers h) =
      ⟨t ++ (PrintErrorMessage h c).map .cout, .normal⟩ := by
  simp [acquisition, block, hl, tryCatch, handlers, say]

theorem mem_quietTrace (q : List LoopStep) (buffer : List Float32) :
    ∀ e ∈ quietTrace q buffer, e = .GetData 0 ∨ ∃ sample, e = .push_sample sample := by
  induction q generalizing buffer with
  | nil => simp [quietTrace]
  | cons s q ih =>
    intro e he
    simp only [quietTrace, List.mem_cons] at he
    rcases he with h | h | h
    · exact Or.inl h
    · exact Or.inr ⟨_, h⟩
    · exact ih _ e h

theorem failed_read_not_mem_quietTrace (q : List LoopStep) (buffer : List Float32) {c : Int}
    (hc : c ≠ 0) : Event.GetData c ∉ quietTrace q buffer := by
  intro hm
  rcases mem_quietTrace q buffer _ hm with h | ⟨x, h⟩
  · exact hc (Event.GetData.inj h)
  · cases h


/-! ## Exit status -/

/-- A read never returns exactly when the passes run out with no interrupt and
no read fault. -/
theorem loop_blocked_iff (steps : List LoopStep) (buffer : List Float32) :
    (acquisitionLoop steps 0 buffer).result = .blocked ↔ ∀ s ∈ steps, s.quiet := by
  induction steps generalizing buffer with
  | nil => simp [acquisitionLoop]
  | cons s rest ih =>
    cases h1 : s.sigTop
    · cases h2 : s.sigRead
      · by_cases h3 : s.status = 0
        · have hq := loop_quiet [s] rest buffer (by
            intro x hx
            rw [List.mem_singleton] at hx
            subst hx
            exact ⟨h1, h2, h3⟩)
          simp only [List.singleton_append] at hq
          rw [hq]
          simp only [lastBuffer, List.forall_mem_cons]
          rw [ih]
          exact ⟨fun hr => ⟨⟨h1, h2, h3⟩, hr⟩, fun hr => hr.2⟩
        · rw [loop_fault s rest buffer h1 h2 h3]
          simp [h3]
      · rw [loop_sigRead s rest buffer h1 h2]
        simp [h2]
    · rw [loop_sigTop s rest buffer h1]
      simp [h1]

/-- The run of `main` when the connection stage throws: the handler prints and
the process exits with 0, with nothing released and nothing closed. -/
theorem main_of_connect_fault (h : UnicornHeader) (env : Env) (he : env.enumerates)
    (x : Thrown) (hr : (connect env).result = .thrown x) :
    main h env =
      ⟨(enumerate env).trace ++ ((connect env).trace ++ (handlers h x).trace), .returned 0⟩ := by
  simp only [main, outerBody, block, seq_of_normal (enumerate_ok env he), seq_of_thrown hr,
    seq_skip]
  simp [tryCatch, hr, handlers_result]

/-- The three ways a run ends. -/
theorem main_exit_cases (h : UnicornHeader) (env : Env) :
    (env.enumStatus = 0 ∧ env.availableDevicesCount = 0 ∧ exitCode (main h env) = some 1) ∨
    (env.acquires ∧ (∀ s ∈ env.steps, s.quiet) ∧ exitCode (main h env) = none) ∨
    (¬ (env.enumStatus = 0 ∧ env.availableDevicesCount = 0) ∧
      ¬ (env.acquires ∧ ∀ s ∈ env.steps, s.quiet) ∧ exitCode (main h env) = some 0) := by
  by_cases h1 : env.enumStatus = 0
  · by_cases h2 : env.availableDevicesCount = 0
    · left
      refine ⟨h1, h2, ?_⟩
      simp [main, outerBody, enumerate, block, tryCatch, say, act, h1, h2, exitCode]
    · have hlt : ¬ env.availableDevicesCount < 1 := by omega
      cases h3 : env.newDevicesFails
      · by_cases h4 : env.listStatus = 0
        · have he : env.enumerates := ⟨h1, h2, h3, h4⟩
          by_cases h5 : env.openStatus = 0
          · by_cases h6 : env.infoStatus = 0
            · have hc : env.connects := ⟨he, h5, h6⟩
              have hi := inner_result h env
              split at hi
              · next hb =>
                right; left
                refine ⟨⟨hc, hb.1, hb.2.1, hb.2.2.1, hb.2.2.2.1⟩,
                  (loop_blocked_iff _ _).1 hb.2.2.2.2, ?_⟩
                rw [main_of_inner_blocked h env hc hi]
                rfl
              · next hb =>
                right; right
                refine ⟨fun hx => h2 hx.2, ?_, ?_⟩
                · rintro ⟨⟨-, c1, c2, c3, c4⟩, hq⟩
                  exact hb ⟨c1, c2, c3, c4, (loop_blocked_iff _ _).2 hq⟩
                · rw [main_of_inner_normal h env hc hi]
                  rfl
            · right; right
              refine ⟨fun hx => h2 hx.2, fun hx => h6 hx.1.1.2.2, ?_⟩
              rw [main_of_connect_fault h env he (.code env.infoStatus)
                (by simp [connect, block, say, act, h5, HandleError_ne h6])]
              rfl
          · right; right
            refine ⟨fun hx => h2 hx.2, fun hx => h5 hx.1.1.2.1, ?_⟩
            rw [main_of_connect_fault h env he (.code env.openStatus)
              (by simp [connect, block, say, act, HandleError_ne h5])]
            rfl
        · right; right
          refine ⟨fun hx => h2 hx.2, fun hx => h4 hx.1.1.1.2.2.2, ?_⟩
          simp [main, outerBody, enumerate, block, tryCatch, say, act, mayThrow, h1, hlt, h3,
            HandleError_ne h4, exitCode, handlers]
      · right; right
        refine ⟨fun hx => h2 hx.2, fun hx => by simpa [h3] using hx.1.1.1.2.2.1, ?_⟩
        simp [main, outerBody, enumerate, block, tryCatch, say, act, mayThrow, h1, hlt, h3,
          exitCode, handlers]
  · right; right
    refine ⟨fun hx => h1 hx.1, fun hx => h1 hx.1.1.1.1, ?_⟩
    simp [main, outerBody, enumerate, block, tryCatch, say, act, HandleError_ne h1, exitCode,
      handlers]

/-! ## Operations of a trace -/

theorem operations_append (a b : Trace) : operations (a ++ b) = operations a ++ operations b := by
  simp [operations]

theorem operations_eq_nil {t : Trace}
    (ht : ∀ e ∈ t, e.stage ≠ .loop ∧ e.stage ≠ .teardown) : operations t = [] := by
  rw [operations, List.filter_eq_nil_iff]
  intro e he hp
  have := ht e he
  simp only [decide_eq_true_eq] at hp
  rcases hp.1 with h | h
  · exact this.1 h
  · exact this.2 h

theorem operations_map_cout (os : List Out) : operations (os.map Event.cout) = [] := by
  apply operations_eq_nil
  intro e he
  obtain ⟨o, -, rfl⟩ := List.mem_map.1 he
  simp [Event.stage]

theorem operations_quietTrace (q : List LoopStep) (buffer : List Float32) :
    operations (quietTrace q buffer) = quietTrace q buffer := by
  rw [operations, List.filter_eq_self]
  intro e he
  rcases mem_quietTrace q buffer e he with h | ⟨x, h⟩ <;> subst h <;> simp [Event.stage]

/-- The set-up stages contribute no operation of the loop or of the teardown. -/
theorem operations_setup (h : UnicornHeader) (env : Env) :
    operations (enumerate env).trace = [] ∧ operations (connect env).trace = [] ∧
      operations (configure h env).trace = [] := by
  refine ⟨operations_eq_nil fun e he => ?_, operations_eq_nil fun e he => ?_,
    operations_eq_nil fun e he => ?_⟩
  · rcases enumerate_stage env e he with h | h <;> simp [h]
  · rcases connect_stage env e he with h | h <;> simp [h]
  · rcases configure_stage h env e he with h | h <;> simp [h]

/-- The stop report, whichever it is, is console output only. -/
theorem acquisition_normal_shape (h : UnicornHeader) (env : Env) (t : Trace)
    (hl : acquisitionLoop env.steps 0 env.heap = ⟨t, .normal⟩) :
    ∃ os : List Out, tryCatch (acquisition env) (handlers h) =
      ⟨t ++ .StopAcquisition env.stopStatus :: os.map Event.cout, .normal⟩ := by
  rw [acquisition_of_loop_normal h env t hl]
  by_cases hs : env.stopStatus = 0
  · exact ⟨[.endl, .str "Data acquisition stopped.", .endl], by simp [hs]⟩
  · exact ⟨PrintErrorMessage h env.stopStatus, by simp [hs]⟩

theorem not_mem_map_cout {e : Event} (os : List Out) (he : e.stage ≠ .console) :
    e ∉ os.map Event.cout := by
  intro hm
  obtain ⟨o, -, rfl⟩ := List.mem_map.1 hm
  exact he rfl

/-! ## What follows a failing driver call -/

theorem reported_of_eq (h : UnicornHeader) {t : Trace} {e : Event} {c : Int} (rest : Trace)
    (heq : after e t = (PrintErrorMessage h c).map Event.cout ++ rest)
    (hrest : ∀ x ∈ rest, x.stage ≠ .loop) : reported h t e c := by
  have hmsg : ∀ x ∈ (PrintErrorMessage h c).map Event.cout, x.stage ≠ .loop := by
    intro x hx
    obtain ⟨o, -, rfl⟩ := List.mem_map.1 hx
    simp [Event.stage]
  refine ⟨heq ▸ List.prefix_append _ _, ?_, ?_⟩
  · rw [heq, reads_append, reads_eq_nil hmsg, reads_eq_nil hrest]
    rfl
  · rw [heq, published_append, published_eq_nil hmsg, published_eq_nil hrest]
    rfl

theorem after_setup {e : Event} (env : Env) (rest : Trace)
    (h1 : e.stage ≠ .console) (h2 : e.stage ≠ .enumerate) (h3 : e.stage ≠ .connect) :
    after e ((enumerate env).trace ++ ((connect env).trace ++ rest)) = after e rest := by
  rw [after_append_of_not_mem _ (not_mem_of_stages (enumerate_stage env) h1 h2),
    after_append_of_not_mem _ (not_mem_of_stages (connect_stage env) h1 h3)]

/-- The first enumeration call fails. -/
theorem after_enumeration_fault (h : UnicornHeader) (env : Env) (hs : env.enumStatus ≠ 0) :
    after (.GetAvailableDevices false env.enumStatus) (main h env).trace =
      (PrintErrorMessage h env.enumStatus).map Event.cout := by
  simp [main, outerBody, enumerate, block, tryCatch, say, act, HandleError_ne hs, handlers]

/-- The second enumeration call fails. -/
theorem after_listing_fault (h : UnicornHeader) (env : Env) (h1 : env.enumStatus = 0)
    (h2 : env.availableDevicesCount ≠ 0) (h3 : env.newDevicesFails = false)
    (hs : env.listStatus ≠ 0) :
    after (.GetAvailableDevices true env.listStatus) (main h env).trace =
      (PrintErrorMessage h env.listStatus).map Event.cout := by
  have hlt : ¬ env.availableDevicesCount < 1 := by omega
  simp [main, outerBody, enumerate, block, tryCatch, say, act, mayThrow, h1, hlt, h3,
    HandleError_ne hs, handlers]

/-- The open call fails. -/
theorem after_open_fault (h : UnicornHeader) (env : Env) (he : env.enumerates)
    (hs : env.openStatus ≠ 0) :
    after (.OpenDevice (selectedSerial env) env.openStatus) (main h env).trace =
      (PrintErrorMessage h env.openStatus).map Event.cout := by
  have hr : (connect env).result = .thrown (.code env.openStatus) := by
    simp [connect, block, say, act, HandleError_ne hs]
  rw [main_of_connect_fault h env he _ hr]
  simp only
  rw [after_append_of_not_mem _ (not_mem_of_stages (enumerate_stage env)
    (by simp [Event.stage]) (by simp [Event.stage]))]
  simp [connect, block, say, act, HandleError_ne hs, handlers]

/-- The device-information query fails. -/
theorem after_information_fault (h : UnicornHeader) (env : Env) (he : env.enumerates)
    (ho : env.openStatus = 0) (hs : env.infoStatus ≠ 0) :
    after (.GetDeviceInformation env.infoStatus) (main h env).trace =
      (PrintErrorMessage h env.infoStatus).map Event.cout := by
  have hr : (connect env).result = .thrown (.code env.infoStatus) := by
    simp [connect, block, say, act, ho, HandleError_ne hs]
  rw [main_of_connect_fault h env he _ hr]
  simp only
  rw [after_append_of_not_mem _ (not_mem_of_stages (enumerate_stage env)
    (by simp [Event.stage]) (by simp [Event.stage]))]
  simp [connect, block, say, act, ho, HandleError_ne hs, handlers]

/-- The run of `main` when the configuration stage throws. -/
theorem main_of_configure_fault (h : UnicornHeader) (env : Env) (hc : env.connects)
    (x : Thrown) (hr : (configure h env).result = .thrown x) :
    main h env =
      ⟨(enumerate env).trace ++ ((connect env).trace ++
        (((configure h env).trace ++ (handlers h x).trace) ++
          teardown h env (decide (env.configurationStatus = 0 ∧ env.newBufferFails = false)))),
       .returned 0⟩ := by
  have hin : tryCatch (innerBody h env) (handlers h) =
      ⟨(configure h env).trace ++ (handlers h x).trace, .normal⟩ := by
    simp only [innerBody, block, seq_of_thrown hr]
    rw [tryCatch_of_thrown hr, handlers_result]
  rw [main_of_inner_normal h env hc (by rw [hin]), hin]

/-- The configuration query fails: the buffer was not allocated. -/
theorem after_configuration_fault (h : UnicornHeader) (env : Env) (hc : env.connects)
    (hs : env.configurationStatus ≠ 0) :
    after (.GetConfiguration env.configurationStatus) (main h env).trace =
      (PrintErrorMessage h env.configurationStatus).map Event.cout ++ teardown h env false := by
  have hr : (configure h env).result = .thrown (.code env.configurationStatus) := by
    simp [configure, block, say, act, HandleError_ne hs]
  rw [main_of_configure_fault h env hc _ hr]
  simp only
  rw [after_setup env _ (by simp [Event.stage]) (by simp [Event.stage]) (by simp [Event.stage])]
  simp [configure, block, say, act, HandleError_ne hs, handlers, hs]

/-- The start of the acquisition fails: the buffer was allocated. -/
theorem after_start_fault (h : UnicornHeader) (env : Env) (hc : env.connects)
    (h1 : env.configurationStatus = 0) (h2 : env.newBufferFails = false)
    (h3 : env.outletFails = false) (hs : env.startStatus ≠ 0) :
    after (.StartAcquisition TESTSIGNAL_ENABLED env.startStatus) (main h env).trace =
      (PrintErrorMessage h env.startStatus).map Event.cout ++ teardown h env true := by
  have hr : (configure h env).result = .thrown (.code env.startStatus) := by
    simp [configure, block, say, act, mayThrow, h1, h2, h3, HandleError_ne hs]
  rw [main_of_configure_fault h env hc _ hr]
  simp only
  rw [after_setup env _ (by simp [Event.stage]) (by simp [Event.stage]) (by simp [Event.stage])]
  simp [configure, block, say, act, mayThrow, h1, h2, h3, HandleError_ne hs, handlers,
    after_append_of_not_mem, forUpTo]

/-- A read fails while the flag is clear. -/
theorem after_read_fault (h : UnicornHeader) (env : Env) (ha : env.acquires)
    (q rest : List LoopStep) (s : LoopStep) (hsteps : env.steps = q ++ s :: rest)
    (hq : ∀ x ∈ q, x.quiet) (h1 : s.sigTop = false) (h2 : s.sigRead = false)
    (hs : s.status ≠ 0) :
    after (.GetData s.status) (main h env).trace =
      (PrintErrorMessage h s.status).map Event.cout ++ teardown h env true := by
  have hl : acquisitionLoop env.steps 0 env.heap =
      ⟨quietTrace q env.heap ++ [.GetData s.status], .thrown (.code s.status)⟩ := by
    rw [hsteps, loop_quiet q _ _ hq, loop_fault s rest _ h1 h2 hs]
  have hacq := acquisition_of_loop_fault h env _ _ hl
  rw [after_main_of_acquires h env ha (by rw [hacq]) (.GetData s.status) (Or.inl rfl), hacq]
  simp only [List.append_assoc]
  rw [after_append_of_not_mem _ (failed_read_not_mem_quietTrace q env.heap hs)]
  simp

/-- The stop of the acquisition fails. -/
theorem after_stop_fault (h : UnicornHeader) (env : Env) (ha : env.acquires)
    (hl : (acquisitionLoop env.steps 0 env.heap).result = .normal)
    (hs : env.stopStatus ≠ 0) :
    after (.StopAcquisition env.stopStatus) (main h env).trace =
      (PrintErrorMessage h env.stopStatus).map Event.cout ++ teardown h env true := by
  obtain ⟨t, hL⟩ : ∃ t, acquisitionLoop env.steps 0 env.heap = ⟨t, .normal⟩ :=
    ⟨(acquisitionLoop env.steps 0 env.heap).trace, by rw [← hl]⟩
  have hacq := acquisition_of_loop_normal h env t hL
  have ht : Event.StopAcquisition env.stopStatus ∉ t := by
    intro hm
    have := loop_stage env.steps 0 env.heap (.StopAcquisition env.stopStatus) (by rw [hL]; exact hm)
    simp [Event.stage] at this
  rw [after_main_of_acquires h env ha (by rw [hacq]) (.StopAcquisition env.stopStatus)
    (Or.inr rfl), hacq]
  simp only [List.append_assoc]
  rw [after_append_of_not_mem _ ht]
  simp [hs]

/-- The inner `try` statement is left whenever the run does not read for ever. -/
theorem inner_normal_of_ends (h : UnicornHeader) (env : Env) (hc : env.connects)
    (hn : ¬ (env.acquires ∧ ∀ s ∈ env.steps, s.quiet)) :
    (tryCatch (innerBody h env) (handlers h)).result = .normal := by
  have hi := inner_result h env
  split at hi
  · next hb =>
    exact absurd ⟨⟨hc, hb.1, hb.2.1, hb.2.2.1, hb.2.2.2.1⟩,
      (loop_blocked_iff _ _).1 hb.2.2.2.2⟩ hn
  · exact hi

/-- The close call fails. -/
theorem after_close_fault (h : UnicornHeader) (env : Env) (hc : env.connects)
    (hn : ¬ (env.acquires ∧ ∀ s ∈ env.steps, s.quiet)) (hs : env.closeStatus ≠ 0) :
    after (.CloseDevice env.closeStatus) (main h env).trace =
      (PrintErrorMessage h env.closeStatus).map Event.cout := by
  rw [main_of_inner_normal h env hc (inner_normal_of_ends h env hc hn)]
  simp only
  rw [after_setup env _ (by simp [Event.stage]) (by simp [Event.stage]) (by simp [Event.stage])]
  have hni : Event.CloseDevice env.closeStatus ∉
      (tryCatch (innerBody h env) (handlers h)).trace := by
    intro hm
    rcases inner_stage h env _ hm with h | h | h | h <;> simp [Event.stage] at h
  rw [after_append_of_not_mem _ hni]
  cases decide (env.configurationStatus = 0 ∧ env.newBufferFails = false) <;>
    simp [teardown, hs]

/-! ## The claims -/

/-- C1. Device selection: in every run that gets to the open call with a
non-empty enumerated list, `UNICORN_OpenDevice` is called once, with the
configured serial `DEVICE_SERIAL` when some enumerated serial equals it and with
the first enumerated serial otherwise. -/
theorem open_targets_selected_serial (h : UnicornHeader) (env : Env) (first : String)
    (others : List String) (he : env.enumerates) (hs : env.serials = first :: others) :
    DEVICE_SERIAL = "UN-2019.02.90" ∧
      openedSerials (main h env).trace =
        [if DEVICE_SERIAL ∈ env.serials then DEVICE_SERIAL else first] := by
  refine ⟨rfl, ?_⟩
  obtain ⟨rest, ht, hrest⟩ := main_trace_of_enumerates h env he
  have hen : openedSerials (enumerate env).trace = [] := by
    apply openedSerials_eq_nil
    intro e hm
    rcases enumerate_stage env e hm with h | h <;> simp [h]
  rw [ht, openedSerials_append, openedSerials_append, openedSerials_connect,
    selectedSerial_eq env first others hs,
    openedSerials_eq_nil (fun e hm => (hrest e hm).2), hen]
  rfl

theorem open_targets_selected_serial_witness :
    ({ sampleEnv with serials := ["UN-2018.01.01", "UN-2019.02.90", "UN-2020.03.03"] } :
        Env).enumerates ∧
      DEVICE_SERIAL = "UN-2019.02.90" ∧
      openedSerials (main sampleHeader
        { sampleEnv with serials := ["UN-2018.01.01", "UN-2019.02.90", "UN-2020.03.03"] }).trace =
        [if DEVICE_SERIAL ∈
            ({ sampleEnv with
                serials := ["UN-2018.01.01", "UN-2019.02.90", "UN-2020.03.03"] } : Env).serials
          then DEVICE_SERIAL else "UN-2018.01.01"] :=
  ⟨by decide, open_targets_selected_serial sampleHeader _ "UN-2018.01.01"
    ["UN-2019.02.90", "UN-2020.03.03"] (by decide) rfl⟩

/-- C2. Zero devices: when the first enumeration call succeeds and reports no
device, the whole run is the scan banner, that one driver call and the line
"No device available", and the process exits with status 1. No other driver
call, allocation or outlet operation takes place. -/
theorem no_device_run (h : UnicornHeader) (env : Env)
    (hs : env.enumStatus = 0) (hc : env.availableDevicesCount = 0) :
    (main h env).trace =
        [.cout (.str "Scanning..."), .cout .endl, .cout .endl,
         .GetAvailableDevices false 0,
         .cout (.str "No device available"), .cout .endl] ∧
      exitCode (main h env) = some 1 := by
  simp [main, outerBody, enumerate, block, tryCatch, say, act, hs, hc, exitCode]

theorem no_device_run_witness :
    (main sampleHeader { sampleEnv with availableDevicesCount := 0, serials := [] }).trace =
        [.cout (.str "Scanning..."), .cout .endl, .cout .endl,
         .GetAvailableDevices false 0,
         .cout (.str "No device available"), .cout .endl] ∧
      exitCode (main sampleHeader { sampleEnv with availableDevicesCount := 0, serials := [] }) =
        some 1 :=
  no_device_run sampleHeader { sampleEnv with availableDevicesCount := 0, serials := [] } rfl rfl

theorem teardown_not_loop (h : UnicornHeader) (env : Env) (b : Bool) :
    ∀ x ∈ teardown h env b, x.stage ≠ .loop := fun x hx => by
  rcases teardown_stage h env b x hx with h | h <;> simp [h]

/-- C4 (as stated, refuted). When the first enumeration call returns status 2
the message is printed and the run ends with no release and no close call. When
the open call returns status 4 the device list, allocated before, is not
released and nothing is closed. When `UNICORN_GetNumberOfAcquiredChannels`
returns status 1 no message is printed at all and the run goes on to read and
publish three frames. -/
theorem no_cleanup_before_session :
    ((main sampleHeader { sampleEnv with enumStatus := 2 }).trace.filter
        fun e => e.stage = .teardown) = [] ∧
      Event.newDevices 1 ∈ (main sampleHeader { sampleEnv with openStatus := 4 }).trace ∧
      ((main sampleHeader { sampleEnv with openStatus := 4 }).trace.filter
        fun e => e.stage = .teardown) = [] ∧
      Event.GetNumberOfAcquiredChannels 1 ∈
        (main sampleHeader { sampleEnv with channelsStatus := 1 }).trace ∧
      Event.cout (.str "An error occurred. Error Code: ") ∉
        (main sampleHeader { sampleEnv with channelsStatus := 1 }).trace ∧
      reads (after (.GetNumberOfAcquiredChannels 1)
        (main sampleHeader { sampleEnv with channelsStatus := 1 }).trace) = [0, 0, 0] ∧
      published (after (.GetNumberOfAcquiredChannels 1)
        (main sampleHeader { sampleEnv with channelsStatus := 1 }).trace) =
          [[1, 2], [3, 4], [5, 6]] := by
  decide

/-- C4 (amended). Error propagation: for every driver call whose status `main`
checks (both enumeration calls, open, get-device-information,
get-configuration, start, read, stop, close) and every non-zero status `c` it
returns, a read failure observed while the stop flag is set excepted, the
message of `c` is printed right after the call and no read and no publication
follows. When the failing call is get-configuration, start, a read or stop, what
follows the call is exactly that message and then the teardown: the release of
the acquisition buffer when it was allocated, the release of the device list and
the close call with its own report. When the failing call is the close call,
the message is all that follows. -/
theorem fault_reporting (h : UnicornHeader) (env : Env) (c : Int) (hc : c ≠ 0) :
    (env.enumStatus = c →
      reported h (main h env).trace (.GetAvailableDevices false c) c) ∧
    (env.enumStatus = 0 → env.availableDevicesCount ≠ 0 → env.newDevicesFails = false →
      env.listStatus = c →
      reported h (main h env).trace (.GetAvailableDevices true c) c) ∧
    (env.enumerates → env.openStatus = c →
      reported h (main h env).trace (.OpenDevice (selectedSerial env) c) c) ∧
    (env.enumerates → env.openStatus = 0 → env.infoStatus = c →
      reported h (main h env).trace (.GetDeviceInformation c) c) ∧
    (env.connects → env.configurationStatus = c →
      reported h (main h env).trace (.GetConfiguration c) c ∧
      after (.GetConfiguration c) (main h env).trace =
        (PrintErrorMessage h c).map Event.cout ++ teardown h env false) ∧
    (env.connects → env.configurationStatus = 0 → env.newBufferFails = false →
      env.outletFails = false → env.startStatus = c →
      reported h (main h env).trace (.StartAcquisition TESTSIGNAL_ENABLED c) c ∧
      after (.StartAcquisition TESTSIGNAL_ENABLED c) (main h env).trace =
        (PrintErrorMessage h c).map Event.cout ++ teardown h env true) ∧
    (env.acquires → ∀ (q rest : List LoopStep) (s : LoopStep), env.steps = q ++ s :: rest →
      (∀ x ∈ q, x.quiet) → s.sigTop = false → s.sigRead = false → s.status = c →
      reported h (main h env).trace (.GetData c) c ∧
      after (.GetData c) (main h env).trace =
        (PrintErrorMessage h c).map Event.cout ++ teardown h env true) ∧
    (env.acquires → (acquisitionLoop env.steps 0 env.heap).result = .normal →
      env.stopStatus = c →
      reported h (main h env).trace (.StopAcquisition c) c ∧
      after (.StopAcquisition c) (main h env).trace =
        (PrintErrorMessage h c).map Event.cout ++ teardown h env true) ∧
    (env.connects → ¬ (env.acquires ∧ ∀ s ∈ env.steps, s.quiet) → env.closeStatus = c →
      reported h (main h env).trace (.CloseDevice c) c ∧
      after (.CloseDevice c) (main h env).trace = (PrintErrorMessage h c).map Event.cout) := by
  refine ⟨?_, ?_, ?_, ?_, ?_, ?_, ?_, ?_, ?_⟩
  · rintro rfl
    exact reported_of_eq h [] (by rw [after_enumeration_fault h env hc]; simp) (by simp)
  · rintro h1 h2 h3 rfl
    exact reported_of_eq h [] (by rw [after_listing_fault h env h1 h2 h3 hc]; simp) (by simp)
  · rintro he rfl
    exact reported_of_eq h [] (by rw [after_open_fault h env he hc]; simp) (by simp)
  · rintro he ho rfl
    exact reported_of_eq h [] (by rw [after_information_fault h env he ho hc]; simp) (by simp)
  · rintro hcon rfl
    have := after_configuration_fault h env hcon hc
    exact ⟨reported_of_eq h _ this (teardown_not_loop h env false), this⟩
  · rintro hcon h1 h2 h3 rfl
    have := after_start_fault h env hcon h1 h2 h3 hc
    exact ⟨reported_of_eq h _ this (teardown_not_loop h env true), this⟩
  · rintro ha q rest s hsteps hq h1 h2 rfl
    have := after_read_fault h env ha q rest s hsteps hq h1 h2 hc
    exact ⟨reported_of_eq h _ this (teardown_not_loop h env true), this⟩
  · rintro ha hl rfl
    have := after_stop_fault h env ha hl hc
    exact ⟨reported_of_eq h _ this (teardown_not_loop h env true), this⟩
  · rintro hcon hn rfl
    have := after_close_fault h env hcon hn hc
    exact ⟨reported_of_eq h [] (by rw [this]; simp) (by simp), this⟩

theorem fault_reporting_witness :
    (5 : Int) ≠ 0 ∧ ({ sampleEnv with configurationStatus := 5 } : Env).connects ∧
      reported sampleHeader (main sampleHeader { sampleEnv with configurationStatus := 5 }).trace
        (.GetConfiguration 5) 5 ∧
      after (.GetConfiguration 5)
          (main sampleHeader { sampleEnv with configurationStatus := 5 }).trace =
        (PrintErrorMessage sampleHeader 5).map Event.cout ++
          teardown sampleHeader { sampleEnv with configurationStatus := 5 } false :=
  ⟨by decide, by decide,
    (fault_reporting sampleHeader { sampleEnv with configurationStatus := 5 } 5
      (by decide)).2.2.2.2.1 (by decide) rfl⟩

theorem reads_after_interrupt (steps : List LoopStep) (buffer : List Float32) :
    (reads (after .OnClose (acquisitionLoop steps 0 buffer).trace)).length ≤ 1 := by
  induction steps generalizing buffer with
  | nil => simp [acquisitionLoop, reads]
  | cons s rest ih =>
    cases h1 : s.sigTop
    · cases h2 : s.sigRead
      · by_cases h3 : s.status = 0
        · have := loop_quiet [s] rest buffer (by
            intro x hx
            rw [List.mem_singleton] at hx
            subst hx
            exact ⟨h1, h2, h3⟩)
          simp only [List.singleton_append] at this
          rw [this]
          simpa [quietTrace, lastBuffer] using ih (s.written.getD buffer)
        · rw [loop_fault s rest buffer h1 h2 h3]
          simp [reads]
      · rw [loop_sigRead s rest buffer h1 h2]
        split <;> simp [reads]
    · rw [loop_sigTop s rest buffer h1]
      simp [reads]

/-- C6. Stop observation. The only writer of the stop flag, `OnClose`, stores 1
whatever the flag held, and a loop entered with the flag set is left at once,
with no read and no publication. In every run of the loop at most one
`UNICORN_GetData` call returns after the first interrupt. When that read
returns a non-zero status, what lies between it and the stop-acquisition call
is the publication of the buffer and, at most, a further interrupt: nothing is
printed, and `UNICORN_StopAcquisition` is called. -/
theorem stop_observation (h : UnicornHeader) :
    (∀ signal stop : Int, OnClose signal stop = 1) ∧
    (∀ (steps : List LoopStep) (stop : Int) (buffer : List Float32), stop ≠ 0 →
      (acquisitionLoop steps stop buffer).result = .normal ∧
      reads (acquisitionLoop steps stop buffer).trace = [] ∧
      published (acquisitionLoop steps stop buffer).trace = []) ∧
    (∀ (steps : List LoopStep) (buffer : List Float32),
      (reads (after .OnClose (acquisitionLoop steps 0 buffer).trace)).length ≤ 1) ∧
    (∀ (env : Env) (q rest : List LoopStep) (s : LoopStep), env.acquires →
      env.steps = q ++ s :: rest → (∀ x ∈ q, x.quiet) →
      s.sigTop = false → s.sigRead = true → s.status ≠ 0 →
      .StopAcquisition env.stopStatus ∈ after (.GetData s.status) (main h env).trace ∧
      before (.StopAcquisition env.stopStatus) (after (.GetData s.status) (main h env).trace) =
        .push_sample (s.written.getD (lastBuffer q env.heap)) ::
          (if rest.head?.map (·.sigTop) = some true then [.OnClose] else [])) := by
  refine ⟨fun _ _ => rfl, ?_, reads_after_interrupt, ?_⟩
  · intro steps stop buffer hs
    rw [loop_stopped steps stop buffer hs]
    split <;> simp [reads, published]
  · intro env q rest s ha hsteps hq h1 h2 h3
    have hl : acquisitionLoop env.steps 0 env.heap =
        ⟨quietTrace q env.heap ++ (.OnClose :: .GetData s.status ::
          .push_sample (s.written.getD (lastBuffer q env.heap)) ::
          (if rest.head?.map (·.sigTop) = some true then [.OnClose] else [])), .normal⟩ := by
      rw [hsteps, loop_quiet q _ _ hq, loop_sigRead s rest _ h1 h2]
    have hacq := acquisition_of_loop_normal h env _ hl
    have hnq := failed_read_not_mem_quietTrace q env.heap h3
    rw [after_main_of_acquires h env ha (by rw [hacq]) (.GetData s.status) (Or.inl rfl), hacq]
    simp only [List.append_assoc]
    rw [after_append_of_not_mem _ hnq]
    split <;> simp

theorem stop_observation_witness :
    ({ sampleEnv with steps := [frameStep [1, 2], swallowedStep] } : Env).acquires ∧
      Event.StopAcquisition 0 ∈ after (.GetData 3)
        (main sampleHeader { sampleEnv with steps := [frameStep [1, 2], swallowedStep] }).trace ∧
      before (.StopAcquisition 0) (after (.GetData 3)
        (main sampleHeader { sampleEnv with steps := [frameStep [1, 2], swallowedStep] }).trace) =
        [.push_sample [1, 2]] :=
  ⟨by decide,
    (stop_observation sampleHeader).2.2.2
      { sampleEnv with steps := [frameStep [1, 2], swallowedStep] }
      [frameStep [1, 2]] [] swallowedStep (by decide) rfl (by decide) rfl rfl (by decide)⟩

/-- C7. Exit status: `main` returns 1 exactly when the first enumeration call
succeeds and reports no device. In every other run that ends, that is whenever
some set-up step fails or the loop meets an interrupt or a read fault, it
returns 0, whatever the statuses of the driver calls, the close call included.
The only runs without an exit status are those in which the loop is reached and
neither an interrupt nor a read fault ever occurs: the program is still
reading. -/
theorem exit_status (h : UnicornHeader) (env : Env) :
    (exitCode (main h env) = some 1 ↔
        env.enumStatus = 0 ∧ env.availableDevicesCount = 0) ∧
      (¬ (env.enumStatus = 0 ∧ env.availableDevicesCount = 0) →
        (¬ env.acquires ∨ ∃ s ∈ env.steps, ¬ s.quiet) → exitCode (main h env) = some 0) ∧
      (exitCode (main h env) = none ↔ env.acquires ∧ ∀ s ∈ env.steps, s.quiet) := by
  rcases main_exit_cases h env with ⟨a, b, c⟩ | ⟨a, b, c⟩ | ⟨a, b, c⟩
  · refine ⟨⟨fun _ => ⟨a, b⟩, fun _ => c⟩, fun hn => absurd ⟨a, b⟩ hn, ?_⟩
    rw [c]
    exact ⟨fun hx => (by cases hx), fun hx => absurd b hx.1.1.1.2.1⟩
  · refine ⟨?_, ?_, ⟨fun _ => ⟨a, b⟩, fun _ => c⟩⟩
    · rw [c]
      exact ⟨fun hx => (by cases hx), fun hx => absurd hx.2 a.1.1.2.1⟩
    · rintro - (hx | ⟨s, hs, hq⟩)
      · exact absurd a hx
      · exact absurd (b s hs) hq
  · refine ⟨?_, fun _ _ => c, ?_⟩
    · rw [c]
      exact ⟨fun hx => (by cases hx), fun hx => absurd hx a⟩
    · rw [c]
      exact ⟨fun hx => (by cases hx), fun hx => absurd hx b⟩

theorem exit_status_witness :
    (exitCode (main sampleHeader { sampleEnv with closeStatus := 9 }) = some 1 ↔
        ({ sampleEnv with closeStatus := 9 } : Env).enumStatus = 0 ∧
          ({ sampleEnv with closeStatus := 9 } : Env).availableDevicesCount = 0) ∧
      exitCode (main sampleHeader { sampleEnv with closeStatus := 9 }) = some 0 :=
  ⟨(exit_status sampleHeader { sampleEnv with closeStatus := 9 }).1,
   (exit_status sampleHeader { sampleEnv with closeStatus := 9 }).2.1 (by decide)
     (Or.inr ⟨interruptStep, by decide, by decide⟩)⟩

/-- C8 (as stated, refuted). Three frames are read, then the interrupt arrives
while a fourth read is under way, and that read returns successfully with a
fourth frame: four samples are published, not three. And when every set-up call
succeeds and the interrupt arrives right after the third frame but the close
call returns status 9, "Disconnected from Unicorn" is not printed. -/
theorem fourth_read_is_published :
    reads (main sampleHeader { sampleEnv with
        steps := [frameStep [1, 2], frameStep [3, 4], frameStep [5, 6],
          ⟨false, 0, some [7, 8], true⟩] }).trace = [0, 0, 0, 0] ∧
      published (main sampleHeader { sampleEnv with
        steps := [frameStep [1, 2], frameStep [3, 4], frameStep [5, 6],
          ⟨false, 0, some [7, 8], true⟩] }).trace = [[1, 2], [3, 4], [5, 6], [7, 8]] ∧
      (published (main sampleHeader { sampleEnv with
        steps := [frameStep [1, 2], frameStep [3, 4], frameStep [5, 6],
          ⟨false, 0, some [7, 8], true⟩] }).trace).length ≠ 3 ∧
      published (main sampleHeader { sampleEnv with closeStatus := 9 }).trace =
        [[1, 2], [3, 4], [5, 6]] ∧
      Event.cout (.str "Disconnected from Unicorn") ∉
        (main sampleHeader { sampleEnv with closeStatus := 9 }).trace := by
  decide

/-- C8 (amended). End-to-end interrupted run: every set-up call succeeds, three
frames are read successfully, and the interrupt arrives after the third read and
before a fourth read starts, either before the test that follows the third read
or before the next loop test; the close call succeeds. Then exactly the three
frames are published, in order; the operations of the run from the first read on
are the three reads each followed by its publication, then
`UNICORN_StopAcquisition`, the two releases and `UNICORN_CloseDevice`; what
follows the close call is the line "Disconnected from Unicorn"; the exit status
is 0. -/
theorem interrupted_after_three_frames (h : UnicornHeader) (env : Env)
    (s1 s2 s3 : LoopStep) (rest : List LoopStep) (ha : env.acquires)
    (hsteps : env.steps = s1 :: s2 :: s3 :: rest) (h1 : s1.quiet) (h2 : s2.quiet)
    (h3 : s3.sigTop = false ∧ s3.status = 0)
    (hint : s3.sigRead = true ∨ rest.head?.map (·.sigTop) = some true)
    (hclose : env.closeStatus = 0) :
    published (main h env).trace =
        [s1.written.getD env.heap, s2.written.getD (s1.written.getD env.heap),
         s3.written.getD (s2.written.getD (s1.written.getD env.heap))] ∧
      operations (main h env).trace =
        [.GetData 0, .push_sample (s1.written.getD env.heap),
         .GetData 0, .push_sample (s2.written.getD (s1.written.getD env.heap)),
         .GetData 0,
         .push_sample (s3.written.getD (s2.written.getD (s1.written.getD env.heap))),
         .StopAcquisition env.stopStatus, .deleteBuffer, .deleteDevices, .CloseDevice 0] ∧
      after (.CloseDevice 0) (main h env).trace =
        [.cout (.str "Disconnected from Unicorn"), .cout .endl] ∧
      exitCode (main h env) = some 0 := by
  have hl : ∃ pre post : Trace, (∀ e ∈ pre, e = Event.OnClose) ∧ (∀ e ∈ post, e = Event.OnClose) ∧
      acquisitionLoop env.steps 0 env.heap =
        ⟨quietTrace [s1, s2] env.heap ++ (pre ++ .GetData 0 ::
          .push_sample (s3.written.getD (s2.written.getD (s1.written.getD env.heap))) :: post),
          .normal⟩ := by
    have hq : ∀ x ∈ [s1, s2], x.quiet := by
      intro x hx
      simp only [List.mem_cons, List.mem_singleton, List.not_mem_nil, or_false] at hx
      rcases hx with rfl | rfl
      · exact h1
      · exact h2
    have happ : env.steps = [s1, s2] ++ s3 :: rest := by rw [hsteps]; rfl
    cases h4 : s3.sigRead
    · have hnext : rest.head?.map (·.sigTop) = some true := by
        rcases hint with hx | hx
        · rw [h4] at hx; cases hx
        · exact hx
      obtain ⟨s4, rest', rfl, h5⟩ : ∃ s4 rest', rest = s4 :: rest' ∧ s4.sigTop = true := by
        cases rest with
        | nil => simp at hnext
        | cons s4 rest' => exact ⟨s4, rest', rfl, by simpa using hnext⟩
      have hq3 := loop_quiet [s3] (s4 :: rest') (lastBuffer [s1, s2] env.heap) (by
        intro x hx
        rw [List.mem_singleton] at hx
        subst hx
        exact ⟨h3.1, h4, h3.2⟩)
      simp only [List.singleton_append] at hq3
      refine ⟨[], [.OnClose], by simp, by simp, ?_⟩
      rw [happ, loop_quiet [s1, s2] _ _ hq, hq3, loop_sigTop s4 rest' _ h5]
      simp [quietTrace, lastBuffer]
    · refine ⟨[.OnClose], if rest.head?.map (·.sigTop) = some true then [.OnClose] else [],
        by simp, ?_, ?_⟩
      · intro e he
        split at he <;> simp_all
      · rw [happ, loop_quiet [s1, s2] _ _ hq, loop_sigRead s3 rest _ h3.1 h4, h3.2]
        simp [quietTrace, lastBuffer]
  obtain ⟨pre, post, hpre, hpost, hl⟩ := hl
  obtain ⟨os, hacq⟩ := acquisition_normal_shape h env _ hl
  have hopre : operations pre = [] := by
    rw [operations, List.filter_eq_nil_iff]
    intro e he
    simp [hpre e he]
  have hopost : operations post = [] := by
    rw [operations, List.filter_eq_nil_iff]
    intro e he
    simp [hpost e he]
  have hppre : published pre = [] :=
    List.filterMap_eq_nil_iff.2 fun e he => by rw [hpre e he]
  have hppost : published post = [] :=
    List.filterMap_eq_nil_iff.2 fun e he => by rw [hpost e he]
  have hmain := main_of_acquires h env ha (by rw [hacq])
  obtain ⟨o1, o2, o3⟩ := operations_setup h env
  refine ⟨?_, ?_, ?_, ?_⟩
  · rw [published_main_of_acquires h env ha (by rw [hacq]), hacq]
    simp only [published_append, hppre]
    have : published (Event.StopAcquisition env.stopStatus :: os.map Event.cout) = [] :=
      published_eq_nil (by
        intro e he
        rcases List.mem_cons.1 he with rfl | he
        · simp [Event.stage]
        · obtain ⟨o, -, rfl⟩ := List.mem_map.1 he
          simp [Event.stage])
    rw [this]
    have hp2 : published (Event.GetData 0 ::
        Event.push_sample (s3.written.getD (s2.written.getD (s1.written.getD env.heap))) ::
          post) = [s3.written.getD (s2.written.getD (s1.written.getD env.heap))] := by
      have : Event.GetData 0 :: Event.push_sample
          (s3.written.getD (s2.written.getD (s1.written.getD env.heap))) :: post =
          [Event.GetData 0, Event.push_sample
            (s3.written.getD (s2.written.getD (s1.written.getD env.heap)))] ++ post := rfl
      rw [this, published_append, hppost]
      rfl
    rw [hp2]
    rfl
  · rw [hmain, hacq]
    simp only [operations_append, o1, o2, o3, List.nil_append, hopre]
    have e1 : operations (quietTrace [s1, s2] env.heap) = quietTrace [s1, s2] env.heap :=
      operations_quietTrace _ _
    have e2 : operations (Event.GetData 0 :: Event.push_sample
        (s3.written.getD (s2.written.getD (s1.written.getD env.heap))) :: post) =
        [Event.GetData 0, Event.push_sample
          (s3.written.getD (s2.written.getD (s1.written.getD env.heap)))] := by
      have : Event.GetData 0 :: Event.push_sample
          (s3.written.getD (s2.written.getD (s1.written.getD env.heap))) :: post =
          [Event.GetData 0, Event.push_sample
            (s3.written.getD (s2.written.getD (s1.written.getD env.heap)))] ++ post := rfl
      rw [this, operations_append, hopost]
      simp [operations, Event.stage]
    have e3 : operations (Event.StopAcquisition env.stopStatus :: os.map Event.cout) =
        [Event.StopAcquisition env.stopStatus] := by
      have : Event.StopAcquisition env.stopStatus :: os.map Event.cout =
          [Event.StopAcquisition env.stopStatus] ++ os.map Event.cout := rfl
      rw [this, operations_append, operations_map_cout]
      simp [operations, Event.stage]
    have e4 : operations (teardown h env true) =
        [.deleteBuffer, .deleteDevices, .CloseDevice 0] := by
      simp [teardown, hclose, operations, Event.stage]
    rw [e1, e2, e3, e4]
    rfl
  · rw [after_main_of_acquires h env ha (by rw [hacq]) (.CloseDevice 0) (Or.inr rfl), hacq]
    simp only [List.append_assoc]
    have n1 : Event.CloseDevice 0 ∉ quietTrace [s1, s2] env.heap := fun hm => by
      have := quietTrace_stage _ _ _ hm
      simp [Event.stage] at this
    have n2 : Event.CloseDevice 0 ∉ pre := fun hm => by cases hpre _ hm
    have n3 : Event.CloseDevice 0 ∉ post := fun hm => by cases hpost _ hm
    have n4 : Event.CloseDevice 0 ∉ os.map Event.cout :=
      not_mem_map_cout os (by simp [Event.stage])
    rw [after_append_of_not_mem _ n1, after_append_of_not_mem _ n2]
    simp only [List.cons_append, after_cons]
    rw [if_neg (by simp), if_neg (by simp), after_append_of_not_mem _ n3]
    simp only [after_cons]
    rw [if_neg (by simp), after_append_of_not_mem _ n4]
    simp [teardown, hclose]
  · rw [hmain]
    rfl

theorem interrupted_after_three_frames_witness :
    sampleEnv.acquires ∧
      published (main sampleHeader sampleEnv).trace = [[1, 2], [3, 4], [5, 6]] ∧
      operations (main sampleHeader sampleEnv).trace =
        [.GetData 0, .push_sample [1, 2], .GetData 0, .push_sample [3, 4],
         .GetData 0, .push_sample [5, 6],
         .StopAcquisition 0, .deleteBuffer, .deleteDevices, .CloseDevice 0] ∧
      after (.CloseDevice 0) (main sampleHeader sampleEnv).trace =
        [.cout (.str "Disconnected from Unicorn"), .cout .endl] ∧
      exitCode (main sampleHeader sampleEnv) = some 0 :=
  ⟨by decide,
    interrupted_after_three_frames sampleHeader sampleEnv (frameStep [1, 2]) (frameStep [3, 4])
      (frameStep [5, 6]) [interruptStep] (by decide) rfl (by decide) (by decide) (by decide)
      (Or.inr rfl) rfl⟩

theorem stopped_not_in_message (h : UnicornHeader) (c : Int) :
    Out.str "Data acquisition stopped." ∉ PrintErrorMessage h c := by
  intro hm
  simp only [PrintErrorMessage, List.mem_append, List.mem_cons, List.mem_singleton,
    List.not_mem_nil, or_false] at hm
  rcases hm with ((hm | hm | hm | hm) | hm) | hm
  · cases hm
  · exact absurd hm (by decide)
  · cases hm
  · exact absurd hm (by decide)
  · revert hm
    unfold errorSentence
    split_ifs <;> intro hm <;>
      simp only [List.mem_singleton, List.not_mem_nil] at hm <;>
      exact absurd hm (by decide)
  · cases hm

/-- C9. A failure of the stop-acquisition call does not stop the teardown: when
the loop is left at its test and `UNICORN_StopAcquisition` returns a non-zero
status, what follows that call is the message of that status, then the release
of the acquisition buffer, the release of the device list and the
`UNICORN_CloseDevice` call with its own report; "Data acquisition stopped." is
not printed, and the process exits with 0. -/
theorem stop_failure_teardown (h : UnicornHeader) (env : Env) (ha : env.acquires)
    (hl : (acquisitionLoop env.steps 0 env.heap).result = .normal)
    (hs : env.stopStatus ≠ 0) :
    after (.StopAcquisition env.stopStatus) (main h env).trace =
        (PrintErrorMessage h env.stopStatus).map .cout ++
        [.deleteBuffer, .deleteDevices, .CloseDevice env.closeStatus] ++
        (if env.closeStatus = 0 then [.cout (.str "Disconnected from Unicorn"), .cout .endl]
         else (PrintErrorMessage h env.closeStatus).map .cout) ∧
      .cout (.str "Data acquisition stopped.") ∉
        after (.StopAcquisition env.stopStatus) (main h env).trace ∧
      exitCode (main h env) = some 0 := by
  have hafter : after (.StopAcquisition env.stopStatus) (main h env).trace =
      (PrintErrorMessage h env.stopStatus).map .cout ++
        [.deleteBuffer, .deleteDevices, .CloseDevice env.closeStatus] ++
        (if env.closeStatus = 0 then [.cout (.str "Disconnected from Unicorn"), .cout .endl]
         else (PrintErrorMessage h env.closeStatus).map .cout) := by
    rw [after_stop_fault h env ha hl hs]
    simp [teardown]
  refine ⟨hafter, ?_, ?_⟩
  · rw [hafter]
    have h1 := stopped_not_in_message h env.stopStatus
    have h2 := stopped_not_in_message h env.closeStatus
    have hne : ∀ (l : List Out), Out.str "Data acquisition stopped." ∉ l →
        Event.cout (.str "Data acquisition stopped.") ∉ l.map Event.cout := by
      intro l hl hm
      obtain ⟨o, ho, heq⟩ := List.mem_map.1 hm
      cases heq
      exact hl ho
    have h3 : Event.cout (.str "Data acquisition stopped.") ∉
        [Event.cout (.str "Disconnected from Unicorn"), .cout .endl] := by decide
    have h4 : Event.cout (.str "Data acquisition stopped.") ∉
        [Event.deleteBuffer, .deleteDevices, .CloseDevice env.closeStatus] := by
      intro hm
      simp only [List.mem_cons, List.mem_singleton, List.not_mem_nil, or_false] at hm
      rcases hm with hm | hm | hm <;> cases hm
    intro hm
    rcases List.mem_append.1 hm with hm | hm
    · rcases List.mem_append.1 hm with hm | hm
      · exact hne _ h1 hm
      · exact h4 hm
    · split at hm
      · exact h3 hm
      · exact hne _ h2 hm
  · obtain ⟨t, hL⟩ : ∃ t, acquisitionLoop env.steps 0 env.heap = ⟨t, .normal⟩ :=
      ⟨(acquisitionLoop env.steps 0 env.heap).trace, by rw [← hl]⟩
    rw [main_of_acquires h env ha (by rw [acquisition_of_loop_normal h env t hL])]
    rfl

theorem stop_failure_teardown_witness :
    ({ sampleEnv with stopStatus := 8 } : Env).acquires ∧
      after (.StopAcquisition 8) (main sampleHeader { sampleEnv with stopStatus := 8 }).trace =
        (PrintErrorMessage sampleHeader 8).map .cout ++
        [.deleteBuffer, .deleteDevices, .CloseDevice 0] ++
        [.cout (.str "Disconnected from Unicorn"), .cout .endl] ∧
      .cout (.str "Data acquisition stopped.") ∉
        after (.StopAcquisition 8) (main sampleHeader { sampleEnv with stopStatus := 8 }).trace ∧
      exitCode (main sampleHeader { sampleEnv with stopStatus := 8 }) = some 0 :=
  ⟨by decide, stop_failure_teardown sampleHeader { sampleEnv with stopStatus := 8 }
    (by decide) (by decide) (by decide)⟩

/-- C3 (defect). The interrupt arrives during the first read, which returns
status 3 and stores nothing: no read has succeeded, and yet one sample, the
uninitialised content of the buffer, is handed to the outlet. -/
theorem swallowed_read_is_published :
    reads (main sampleHeader { sampleEnv with steps := [swallowedStep] }).trace = [3] ∧
      published (main sampleHeader { sampleEnv with steps := [swallowedStep] }).trace =
        [[7, 7]] ∧
      sampleEnv.heap = [7, 7] := by
  decide

/-- C5 (defect). The open call succeeds and the device-information query
returns status 9: the session was opened, and the run ends with exit status 0
without a close call and without the release of the device list. -/
theorem information_failure_skips_close :
    Event.OpenDevice "UN-2019.02.90" 0 ∈
        (main sampleHeader { sampleEnv with infoStatus := 9 }).trace ∧
      Event.GetDeviceInformation 9 ∈
        (main sampleHeader { sampleEnv with infoStatus := 9 }).trace ∧
      (main sampleHeader { sampleEnv with infoStatus := 9 }).trace.filter
        (fun e => e.stage = .teardown) = [] ∧
      exitCode (main sampleHeader { sampleEnv with infoStatus := 9 }) = some 0 := by
  decide

theorem errorSentence_codes (h : UnicornHeader) (hd : h.errorCodes.Nodup) :
    h.errorCodes.map (errorSentence h) = errorSentences.map fun s => [Out.str s] := by
  simp only [UnicornHeader.errorCodes, List.nodup_cons, List.mem_cons, List.mem_singleton,
    not_or, List.not_mem_nil, not_false_iff, List.nodup_nil, and_true] at hd
  obtain ⟨⟨h01, h02, h03, h04, h05, h06, h07, h08, h09⟩, ⟨h12, h13, h14, h15, h16, h17, h18, h19⟩,
    ⟨h23, h24, h25, h26, h27, h28, h29⟩, ⟨h34, h35, h36, h37, h38, h39⟩,
    ⟨h45, h46, h47, h48, h49⟩, ⟨h56, h57, h58, h59⟩, ⟨h67, h68, h69⟩, ⟨h78, h79⟩, h89⟩ := hd
  simp [UnicornHeader.errorCodes, errorSentences, errorSentence, Ne.symm, *]

theorem errorSentence_other (h : UnicornHeader) (c : Int) (hc : c ∉ h.errorCodes) :
    errorSentence h c = [] := by
  simp only [UnicornHeader.errorCodes, List.mem_cons, List.mem_singleton, not_or,
    List.not_mem_nil, not_false_iff, and_true] at hc
  simp [errorSentence, hc]

/-- C10. Error-message mapping: for every integer code `PrintErrorMessage` sends
a line end, then "An error occurred. Error Code: ", the code and " - ", then the
sentence of the code, then a line end. When the ten error constants are pairwise
distinct, each of them yields its own sentence, in the order invalid parameter,
Bluetooth init failed, Bluetooth socket failed, open device failed, invalid
configuration, buffer overflow, buffer underflow, operation not allowed, invalid
handle, general error; the ten sentences are pairwise distinct, so that two codes
with the same non-empty sentence are equal; every other code yields no sentence,
the success status included when it is none of the ten. -/
theorem PrintErrorMessage_mapping (h : UnicornHeader) (hd : h.errorCodes.Nodup) :
    (∀ c : Int, PrintErrorMessage h c =
        [.endl, .str "An error occurred. Error Code: ", .num c, .str " - "] ++
          errorSentence h c ++ [.endl]) ∧
      h.errorCodes.map (errorSentence h) = errorSentences.map (fun s => [Out.str s]) ∧
      errorSentences.length = 10 ∧ errorSentences.Nodup ∧
      (∀ c c' : Int, errorSentence h c = errorSentence h c' → errorSentence h c ≠ [] → c = c') ∧
      (∀ c : Int, c ∉ h.errorCodes → errorSentence h c = []) ∧
      (UNICORN_ERROR_SUCCESS ∉ h.errorCodes → errorSentence h UNICORN_ERROR_SUCCESS = []) := by
  refine ⟨fun c => rfl, errorSentence_codes h hd, rfl, by decide, ?_,
    errorSentence_other h, errorSentence_other h _⟩
  intro c c' heq hne
  have hc : c ∈ h.errorCodes := by
    by_contra hc
    exact hne (errorSentence_other h c hc)
  have hc' : c' ∈ h.errorCodes := by
    by_contra hc'
    exact hne (heq.trans (errorSentence_other h c' hc'))
  have hinj : ∀ i j : Fin 10,
      (errorSentences.map fun s => [Out.str s])[i.1]? =
        (errorSentences.map fun s => [Out.str s])[j.1]? → i = j := by decide
  have hlen : h.errorCodes.length = 10 := rfl
  obtain ⟨i, hi, rfl⟩ := List.getElem_of_mem hc
  obtain ⟨j, hj, rfl⟩ := List.getElem_of_mem hc'
  have hmap := errorSentence_codes h hd
  have e1 : (h.errorCodes.map (errorSentence h))[i]? = some (errorSentence h h.errorCodes[i]) := by
    simp [hi]
  have e2 : (h.errorCodes.map (errorSentence h))[j]? = some (errorSentence h h.errorCodes[j]) := by
    simp [hj]
  rw [hmap] at e1 e2
  have := hinj ⟨i, hlen ▸ hi⟩ ⟨j, hlen ▸ hj⟩ (by rw [e1, e2, heq])
  have hij : i = j := congrArg Fin.val this
  subst hij
  rfl

theorem PrintErrorMessage_mapping_witness :
    sampleHeader.errorCodes.Nodup ∧
      (∀ c : Int, PrintErrorMessage sampleHeader c =
        [.endl, .str "An error occurred. Error Code: ", .num c, .str " - "] ++
          errorSentence sampleHeader c ++ [.endl]) ∧
      sampleHeader.errorCodes.map (errorSentence sampleHeader) =
        errorSentences.map (fun s => [Out.str s]) ∧
      errorSentences.length = 10 ∧ errorSentences.Nodup ∧
      (∀ c c' : Int, errorSentence sampleHeader c = errorSentence sampleHeader c' →
        errorSentence sampleHeader c ≠ [] → c = c') ∧
      (∀ c : Int, c ∉ sampleHeader.errorCodes → errorSentence sampleHeader c = []) ∧
      (UNICORN_ERROR_SUCCESS ∉ sampleHeader.errorCodes →
        errorSentence sampleHeader UNICORN_ERROR_SUCCESS = []) :=
  ⟨by decide, PrintErrorMessage_mapping sampleHeader (by decide)⟩

end UnicornLSL
